import Mathlib

/-!
# Verification of the `generate_logs` repository

A shallow embedding, in Lean 4, of the parts of the `generate_logs` Python
repository that the specification's claims are about:

* the bounded random primitives (`LogGenerator._randint` of `generate_logs.py`
  and `BaseLogGenerator._randint` of `log_generators.py`),
* the message catalog and placeholder substitution
  (`_get_realistic_message` of both files),
* the event coordinator of `event_generation_example.py`
  (`EventCoordinator.get_active_event`, `record_log_generated`,
  `_parse_start_time`),
* the per-format line generators (`generate_apache_logs`,
  `generate_json_logs` of `generate_logs.py`; `JsonLogGenerator.generate`
  of `log_generators.py`),
* the run scheduler (`run_concurrent` of `generate_logs.py` and of the
  class-based runners) and the `LOG_GENERATORS` registry.

Modelling conventions:

* Randomness: Python's `random` module is modelled by an explicit stream of
  raw draws, `RS := List Nat`.  Each primitive consumes one element (`0` once
  the stream is exhausted) and maps it into its range by a modulus; a uniform
  draw `random.randint(a, b)` on a nonempty range becomes
  `a + n % (b - a + 1)`.  Theorems quantify over the whole stream, so they
  hold for every possible sequence of draws.
* Wall-clock timestamps are an external input: generators take the rendered
  timestamp text as a function of the line index; `datetime` values in the
  event coordinator are modelled as integer seconds.
* Python exceptions are modelled with `Option`/`Except`: a call that raises
  (`ValueError` from `random.randint` on an empty range, `KeyError` from a
  missing dict key) returns `none` / `.error`.
* Python strings are modelled as `List Char` wherever character-level
  reasoning is needed; `str.replace` is embedded as `replaceAll` below.
-/

set_option maxRecDepth 20000

namespace GenLogs

/-! ## Random source -/

/-- A stream of raw random draws.  Modelling of Python's `random` module:
each primitive consumes draws from the front. -/
abbrev RS := List Nat

/-- Consume one raw draw (0 if the stream is exhausted). -/
def nextN : RS → Nat × RS
  | [] => (0, [])
  | n :: σ => (n, σ)

/-- A uniform draw from the inclusive nonempty range `[low, high]`:
`random.randint(low, high)` for `low ≤ high`, with the raw draw mapped into
the range by a modulus. -/
def uniformInt (low high : Int) (n : Nat) : Int :=
  low + (n : Int) % (high - low + 1)

/-- `LogGenerator._randint` from `generate_logs.py`: swaps the bounds when
`low > high`, then draws uniformly from the inclusive range. -/
def glRandint (low high : Int) (σ : RS) : Int × RS :=
  let (n, σ') := nextN σ
  if low > high then (uniformInt high low n, σ') else (uniformInt low high n, σ')

/-- `BaseLogGenerator._randint` from `log_generators.py`: calls
`random.randint(min_val, max_val)` directly; Python raises `ValueError`
(empty range) when `min_val > max_val`, modelled as `none`. -/
def baseRandint (low high : Int) (σ : RS) : Option Int × RS :=
  let (n, σ') := nextN σ
  if low ≤ high then (some (uniformInt low high n), σ') else (none, σ')

/-- In-range draw used by the class-based generators of `log_generators.py`:
every call site there passes literal bounds with `low ≤ high`, so the
`ValueError` branch of `baseRandint` is dead and the draw is modelled
directly. -/
def lgRandint (low high : Int) (σ : RS) : Int × RS :=
  (uniformInt low high (nextN σ).1, (nextN σ).2)

/-- `random.choice` over a nonempty sequence: one raw draw indexes the list.
(`d` is a default for the empty list, at which Python would raise; all call
sites in the sources pass nonempty literal lists.) -/
def pickL {α : Type} (xs : List α) (d : α) (σ : RS) : α × RS :=
  (xs.getD ((nextN σ).1 % xs.length) d, (nextN σ).2)

/-! ## Event coordinator (`event_generation_example.py`) -/

/-- `EventType` enum. -/
inductive EventType
  | cross_format_attack
  | error_burst
  | scanning_pattern
  | brute_force
  | service_degradation
deriving DecidableEq, Repr

/-- A per-format override block (the `apache` / `nginx` dicts of an event's
JSON configuration).  A `none` field models an absent key (`dict.get`
returns `None`).  An absent or empty dict is modelled as `none` at the use
site, which is behaviourally identical in the source (both are falsy and
both make every `config.get` fall back). -/
structure FormatCfg where
  total_logs : Option Int := none
  error_rate : Option Rat := none
  error_codes : Option (List Int) := none
deriving DecidableEq, Repr

/-- `EventConfig` dataclass of `event_generation_example.py`.
`error_rate` (a Python float) is modelled as an exact rational; `start_time`
is kept as its source string (`"+5m"` relative or `"HH:MM:SS"` absolute). -/
structure EventConfig where
  id : String
  name : String
  type : EventType
  start_time : String
  duration_seconds : Int
  ip : String
  affected_formats : List String
  apache_config : Option FormatCfg := none
  nginx_config : Option FormatCfg := none
  error_rate : Rat := 7 / 10
  error_codes : List Int := [403, 404, 500]
deriving DecidableEq, Repr

/-- The per-event mutable state dict created by `EventCoordinator.__init__`:
it holds exactly the counters `apache_logs_generated` and
`nginx_logs_generated` (plus the `started` / `ended` flags). -/
structure EventState where
  apache_logs_generated : Nat := 0
  nginx_logs_generated : Nat := 0
  started : Bool := false
  ended : Bool := false
deriving DecidableEq, Repr

/-- First-match lookup in an association list (Python `dict[k]` /
`dict.get(k)`). -/
def dictGet {β : Type} (l : List (String × β)) (k : String) : Option β :=
  (l.find? (fun p => p.1 == k)).map (·.2)

/-- Insert-or-replace in an association list (Python `dict[k] = v`). -/
def dictInsert {β : Type} (k : String) (v : β) : List (String × β) → List (String × β)
  | [] => [(k, v)]
  | (k', v') :: t => if k' == k then (k, v) :: t else (k', v') :: dictInsert k v t

/-- The `EventCoordinator`: the loaded events, the run-start timestamp
(seconds), and `event_state`, the per-event-id state dict. -/
structure Coordinator where
  events : List EventConfig
  start_time : Int
  event_state : List (String × EventState)
deriving DecidableEq, Repr

/-- `EventCoordinator.__init__`: stores events and run start, and initialises
one zeroed state record per event id. -/
def mkCoordinator (events : List EventConfig) (startT : Int) : Coordinator :=
  { events := events
    start_time := startT
    event_state := events.foldl (fun d e => dictInsert e.id {} d) [] }

/-- Decimal-digit parse of a character list (`int(s)` on a nonnegative
decimal literal; anything else raises `ValueError`, modelled as `none`). -/
def digitsToNat : List Char → Option Nat
  | [] => none
  | cs => go cs 0
where
  go : List Char → Nat → Option Nat
    | [], acc => some acc
    | c :: t, acc => if c.isDigit then go t (acc * 10 + (c.toNat - '0'.toNat)) else none

/-- Split a character list on `':'` (Python `str.split(":")`). -/
def splitColon : List Char → List (List Char)
  | [] => [[]]
  | c :: t =>
    if c == ':' then [] :: splitColon t
    else
      match splitColon t with
      | [] => [[c]]
      | g :: gs => (c :: g) :: gs

/-- Midnight of the day containing timestamp `t` (`self.start_time.date()`
combined with a time of day). -/
def dayStart (t : Int) : Int := t - t % 86400

/-- `EventCoordinator._parse_start_time`.  A string starting with `"+"` is
relative: the text between the first and last character is parsed as an
integer number of minutes past the run start (the unit character itself is
never inspected).  Otherwise the string is split on `":"` into exactly three
components `hour:minute:second` on the run-start day (out-of-range
components make `time.replace` raise).  `none` models the `ValueError`
Python raises on a malformed string. -/
def parseStartTime (runStart : Int) (s : String) : Option Int :=
  match s.data with
  | '+' :: rest =>
    (digitsToNat rest.dropLast).map (fun m => runStart + (m : Int) * 60)
  | cs =>
    match (splitColon cs).map digitsToNat with
    | [some h, some m, some sec] =>
      if h ≤ 23 && m ≤ 59 && sec ≤ 59 then
        some (dayStart runStart + (h : Int) * 3600 + (m : Int) * 60 + (sec : Int))
      else none
    | _ => none

/-- `getattr(event, f"{format_type}_config", None)`: only `apache` and
`nginx` override attributes exist on the dataclass. -/
def formatConfig (e : EventConfig) (fmt : String) : Option FormatCfg :=
  if fmt == "apache" then e.apache_config
  else if fmt == "nginx" then e.nginx_config
  else none

/-- `state[f"{format_type}_logs_generated"]` for the formats whose counter
keys exist.  (In `get_active_event` this read is only reached for a format
with an override config, hence only for `apache`/`nginx`; the `0` default is
dead code.) -/
def counterOf (st : EventState) (fmt : String) : Nat :=
  if fmt == "apache" then st.apache_logs_generated
  else if fmt == "nginx" then st.nginx_logs_generated
  else 0

/-- `state[f"{format_type}_logs_generated"] += 1`: raises `KeyError`
(modelled `none`) for any format other than `apache` / `nginx`, whose keys
are the only ones `__init__` creates. -/
def incCounter (st : EventState) (fmt : String) : Option EventState :=
  if fmt == "apache" then some { st with apache_logs_generated := st.apache_logs_generated + 1 }
  else if fmt == "nginx" then some { st with nginx_logs_generated := st.nginx_logs_generated + 1 }
  else none

/-- `EventCoordinator.record_log_generated(event_id, format_type)`:
increments the event's per-format counter; `none` models the `KeyError`
raised on an unknown event id or on a format without a counter key. -/
def recordLogGenerated (c : Coordinator) (eventId fmt : String) : Option Coordinator :=
  match dictGet c.event_state eventId with
  | none => none
  | some st =>
    (incCounter st fmt).map
      (fun st' => { c with event_state := dictInsert eventId st' c.event_state })

/-- `n` successive calls to `record_log_generated`. -/
def recordRepeat (eventId fmt : String) : Nat → Coordinator → Option Coordinator
  | 0, c => some c
  | n + 1, c => (recordLogGenerated c eventId fmt).bind (recordRepeat eventId fmt n)

/-- The loop body of `EventCoordinator.get_active_event`, iterating the
event list in declaration order.  For each event: parse its start time
(raising on a malformed string), check the inclusive time window, check the
format membership, look up the state record (raising on a missing id), and
apply the cap check — which the source guards with Python truthiness, so a
configured `total_logs` of `0` (or an absent override) imposes no cap.
Returns the first event that passes, `none` past the end of the list. -/
def getActiveEventFrom (startT : Int) (state : List (String × EventState))
    (fmt : String) (now : Int) : List EventConfig → Except String (Option EventConfig)
  | [] => .ok none
  | e :: rest =>
    match parseStartTime startT e.start_time with
    | none => .error "ValueError: invalid start_time"
    | some eventStart =>
      if eventStart ≤ now ∧ now ≤ eventStart + e.duration_seconds then
        if fmt ∈ e.affected_formats then
          match dictGet state e.id with
          | none => .error "KeyError: unknown event id"
          | some st =>
            match formatConfig e fmt with
            | some cfg =>
              match cfg.total_logs with
              | some maxLogs =>
                if maxLogs ≠ 0 then
                  if (counterOf st fmt : Int) ≥ maxLogs then
                    getActiveEventFrom startT state fmt now rest
                  else .ok (some e)
                else .ok (some e)
              | none => .ok (some e)
            | none => .ok (some e)
        else getActiveEventFrom startT state fmt now rest
      else getActiveEventFrom startT state fmt now rest

/-- `EventCoordinator.get_active_event(format_type, current_time)`. -/
def getActiveEvent (c : Coordinator) (fmt : String) (now : Int) :
    Except String (Option EventConfig) :=
  getActiveEventFrom c.start_time c.event_state fmt now c.events

/-- Modelled from the spec: the qualification predicate exactly as the claim
words it — the event's time window contains `now`, the format is among the
affected formats, and the per-format cap (any configured `total_logs` value)
is not yet reached by the per-format counter. -/
def qualifiesPerClaim (startT : Int) (state : List (String × EventState))
    (fmt : String) (now : Int) (e : EventConfig) : Bool :=
  match parseStartTime startT e.start_time with
  | none => false
  | some eventStart =>
    decide (eventStart ≤ now) && decide (now ≤ eventStart + e.duration_seconds) &&
    decide (fmt ∈ e.affected_formats) &&
    (match formatConfig e fmt with
     | some cfg =>
       match cfg.total_logs with
       | some maxLogs =>
         decide ((counterOf ((dictGet state e.id).getD {}) fmt : Int) < maxLogs)
       | none => true
     | none => true)

/-- The qualification predicate the code actually implements: as
`qualifiesPerClaim`, except that a configured cap of `0` is falsy in Python
and therefore imposes no cap. -/
def qualifiesCode (startT : Int) (state : List (String × EventState))
    (fmt : String) (now : Int) (e : EventConfig) : Bool :=
  match parseStartTime startT e.start_time with
  | none => false
  | some eventStart =>
    decide (eventStart ≤ now) && decide (now ≤ eventStart + e.duration_seconds) &&
    decide (fmt ∈ e.affected_formats) &&
    (match formatConfig e fmt with
     | some cfg =>
       match cfg.total_logs with
       | some maxLogs =>
         maxLogs == 0 ||
           decide ((counterOf ((dictGet state e.id).getD {}) fmt : Int) < maxLogs)
       | none => true
     | none => true)

/-- The configured `total_logs` cap of an event's `nginx` override, if any. -/
def nginxCap (e : EventConfig) : Option Int :=
  e.nginx_config.bind (fun c => c.total_logs)

/-! ### Concrete sample events (used by counterexamples and witnesses) -/

/-- An event whose `apache` override configures `total_logs = 0`: within its
window, with a fresh counter, a cap of `0` lines has already been reached in
the claim's reading, but is falsy — hence capless — in the source. -/
def evZeroCap : EventConfig :=
  { id := "burst_zero"
    name := "Zero-cap burst"
    type := .error_burst
    start_time := "+0m"
    duration_seconds := 100
    ip := "10.0.0.50"
    affected_formats := ["apache"]
    apache_config := some { total_logs := some 0 }
    nginx_config := none
    error_rate := 9 / 10
    error_codes := [500, 502, 503] }

/-- Coordinator loaded with only `evZeroCap`, run-start 0. -/
def coordZeroCap : Coordinator := mkCoordinator [evZeroCap] 0

/-- An event whose affected formats name a format (`mysql`) for which
`__init__` creates no counter key. -/
def evMysql : EventConfig :=
  { id := "scan_001"
    name := "Scanning Pattern"
    type := .scanning_pattern
    start_time := "+1m"
    duration_seconds := 60
    ip := "1.2.3.4"
    affected_formats := ["mysql"]
    apache_config := none
    nginx_config := none
    error_rate := 7 / 10
    error_codes := [403, 404, 500] }

/-- Coordinator loaded with only `evMysql`, run-start 0. -/
def coordMysql : Coordinator := mkCoordinator [evMysql] 0

/-- The `attack_001` example event of `example_event_config()`:
`apache total_logs = 50`, `nginx total_logs = 40`. -/
def evAttack : EventConfig :=
  { id := "attack_001"
    name := "Cross-Format Attack Pattern"
    type := .cross_format_attack
    start_time := "+2m"
    duration_seconds := 300
    ip := "192.168.1.100"
    affected_formats := ["apache", "nginx"]
    apache_config := some { total_logs := some 50, error_rate := some (7 / 10), error_codes := some [403, 404, 500] }
    nginx_config := some { total_logs := some 40, error_rate := some (7 / 10), error_codes := some [403, 404, 500] }
    error_rate := 7 / 10
    error_codes := [403, 404, 500] }

/-! ## Run scheduler (`run_concurrent` variants) and format registry -/

/-- The six named generator tasks `run_concurrent` of `generate_logs.py`
submits, one per format. -/
def glGenerators : List String := ["Apache", "JSON", "CSV", "Pipe", "KV", "Hadoop"]

/-- `max_workers=6` of the thread pool in `generate_logs.py`'s
`run_concurrent`. -/
def glMaxWorkers : Nat := 6

/-- The error line `run_concurrent` of `generate_logs.py` logs when a
generator's future raised. -/
def failMsg (name e : String) : String :=
  "[!] " ++ name ++ " generator failed: " ++ e

/-- The two progress lines `run_concurrent` of `generate_logs.py` logs
before submitting. -/
def glHeader (outputFile : String) (linesPerFormat : Nat) : List String :=
  ["[*] Writing logs to: " ++ outputFile,
   "[*] Concurrent generation: up to " ++ toString linesPerFormat ++
     " lines per format across 6 formats"]

/-- The completion line `run_concurrent` of `generate_logs.py` always logs
after the `as_completed` loop. -/
def glFinalMsg (outputFile : String) : String :=
  "[OK] All formats finished. Output file: " ++ outputFile

/-- The error lines produced by the `as_completed` loop of
`generate_logs.py`: each future's exception is caught and logged with the
format's name; successful futures log nothing. -/
def failLogs : List (String × Except String Unit) → List String
  | [] => []
  | (_, .ok _) :: t => failLogs t
  | (name, .error e) :: t => failMsg name e :: failLogs t

/-- `run_concurrent` of `generate_logs.py`, modelled over the completion
outcomes of its submitted tasks: headers, then one caught-and-logged error
per failed task, then the completion message; the call itself never
raises. -/
def runConcurrentGL (outputFile : String) (linesPerFormat : Nat)
    (outcomes : List (String × Except String Unit)) : List String :=
  glHeader outputFile linesPerFormat ++ failLogs outcomes ++ [glFinalMsg outputFile]

/-- The `future.result()` loop of the class-based `run_concurrent`
(`refactored_example.py` / `enhanced_cli_example.py`): futures are awaited
in submission order with no `try`/`except`, so the first failure's
exception propagates. -/
def awaitAll : List (Except String Unit) → Except String Unit
  | [] => .ok ()
  | .ok _ :: t => awaitAll t
  | .error e :: _ => .error e

/-- The two progress lines of the class-based `run_concurrent` (note: they
assert `lines * 6` total lines "across 6 formats"). -/
def classHeader (outputFile : String) (linesPerFormat : Nat) : List String :=
  ["[*] Writing logs to: " ++ outputFile,
   "[*] Concurrent generation: " ++ toString (linesPerFormat * 6) ++
     " total lines across 6 formats"]

/-- The completion line of the class-based `run_concurrent`. -/
def classFinalMsg (outputFile : String) (linesPerFormat : Nat) : String :=
  "[OK] All formats finished. Total lines: " ++ toString (linesPerFormat * 6) ++
    ". Output file: " ++ outputFile

/-- The class-based `run_concurrent`, modelled over the outcomes of its
submitted per-format tasks: logs headers, awaits each future in order; a
failure escapes as an exception (second component), skipping both the
per-format error log and the completion message.  (The already-submitted
sibling tasks themselves still run: the executor's shutdown on scope exit
waits for them.) -/
def runConcurrentClassBased (outputFile : String) (linesPerFormat : Nat)
    (outcomes : List (Except String Unit)) : List String × Except String Unit :=
  match awaitAll outcomes with
  | .ok _ =>
    (classHeader outputFile linesPerFormat ++ [classFinalMsg outputFile linesPerFormat], .ok ())
  | .error e => (classHeader outputFile linesPerFormat, .error e)

/-- One tag per generator class defined in `log_generators.py`. -/
inductive GenKind
  | apache | csv | pipe | kv | hadoop | logstash | nginx | tomcat | mysql | redis | syslog
  | json
deriving DecidableEq, Repr

/-- The `LOG_GENERATORS` registry of `log_generators.py`, in source order.
`JsonLogGenerator` (tag `GenKind.json`) is defined in the module but has no
entry. -/
def LOG_GENERATORS : List (String × GenKind) :=
  [("apache", .apache), ("csv", .csv), ("pipe", .pipe), ("kv", .kv), ("hadoop", .hadoop),
   ("logstash", .logstash), ("nginx", .nginx), ("tomcat", .tomcat), ("mysql", .mysql),
   ("redis", .redis), ("syslog", .syslog)]

/-- The formats the class-based `run_concurrent` submits: one task per
registry key (`for format_name in LOG_GENERATORS.keys()`). -/
def classBasedSubmittedFormats : List String := LOG_GENERATORS.map (·.1)

/-- `max_workers=6` of the class-based `run_concurrent`'s pool. -/
def classBasedMaxWorkers : Nat := 6

/-- The format count asserted by the class-based runner's own log messages
(`"... across 6 formats"`, `"Total lines: {lines * 6}"`). -/
def classBasedClaimedFormatCount : Nat := 6

/-- The `--format` choices of `enhanced_cli_example.py`:
`list(LOG_GENERATORS.keys()) + ['all']`. -/
def enhancedCliFormatChoices : List String := classBasedSubmittedFormats ++ ["all"]

/-! ## Python `str.replace` on character lists -/

/-- Fuel-driven body of `replaceAll`.  The fuel is an upper bound on the
length of the remaining input, so the recursion is structural and the
function evaluates inside the kernel. -/
def replaceAllFuel (p v : List Char) : Nat → List Char → List Char
  | 0, xs => xs
  | _ + 1, [] => []
  | f + 1, x :: xs =>
    if p ≠ [] ∧ p.isPrefixOf (x :: xs) then
      v ++ replaceAllFuel p v f ((x :: xs).drop p.length)
    else
      x :: replaceAllFuel p v f xs

/-- Python `str.replace(p, v)` — replace every non-overlapping occurrence of
the (nonempty) pattern `p`, scanning left to right — on character lists. -/
def replaceAll (p v xs : List Char) : List Char :=
  replaceAllFuel p v xs.length xs

/-- `p` occurs as a contiguous substring of `xs`. -/
def Occurs (p xs : List Char) : Prop :=
  ∃ a b, xs = a ++ p ++ b

/-! ## Decimal rendering (Python `str(n)` / f-string formatting) -/

/-- Fuel-driven decimal rendering of a natural number (most significant
digit first); fuel `n` suffices for input `n`. -/
def natStrFuel : Nat → Nat → List Char
  | 0, n => [Nat.digitChar (n % 10)]
  | f + 1, n =>
    if n < 10 then [Nat.digitChar n]
    else natStrFuel f (n / 10) ++ [Nat.digitChar (n % 10)]

/-- Python `str(n)` for a natural number. -/
def natStr (n : Nat) : List Char := natStrFuel n n

/-- Python `f"{x:02d}"` for `x ≥ 0`. -/
def pad2 (x : Nat) : List Char :=
  if x < 10 then '0' :: natStr x else natStr x

/-- Python `f"{x:03d}"` for `x ≥ 0`. -/
def pad3 (x : Nat) : List Char :=
  if x < 10 then '0' :: '0' :: natStr x
  else if x < 100 then '0' :: natStr x
  else natStr x

/-- The alphabet of `_randhex`. -/
def hexAlphabet : List Char := "0123456789abcdef".data

/-- `random.choices(population, k=n)`: `n` independent uniform draws. -/
def randChars (alphabet : List Char) : Nat → RS → List Char × RS
  | 0, σ => ([], σ)
  | n + 1, σ =>
    let r := pickL alphabet '0' σ
    let t := randChars alphabet n r.2
    (r.1 :: t.1, t.2)

/-- `_randhex(length)` of both generator files. -/
def randhex (length : Nat) (σ : RS) : List Char × RS :=
  randChars hexAlphabet length σ

/-! ## The message catalog's placeholders -/

/-- The placeholder names, in the order `_get_realistic_message` replaces
them (`{amount}` first, `{time}` last). -/
def phWords : List (List Char) :=
  ["amount", "item_id", "product_id", "user_id", "txn_id", "order_id", "tracking_id",
   "query", "category", "time"].map String.data

/-- The `i`-th placeholder name. -/
def phWord (i : Nat) : List Char := phWords.getD i []

/-- The `i`-th placeholder token, `"{" ++ name ++ "}"`. -/
def phTok (i : Nat) : List Char := '{' :: (phWord i ++ ['}'])

/-- A template decomposes into literal runs and placeholder occurrences. -/
inductive Seg
  | lit (s : List Char)
  | hole (i : Nat)
deriving DecidableEq, Repr

/-- Render a decomposed template in which the placeholders with index `< k`
have already been substituted by their values `vals` and the rest still
stand as their tokens. -/
def renderFrom (k : Nat) (vals : Nat → List Char) : List Seg → List Char
  | [] => []
  | .lit s :: t => s ++ renderFrom k vals t
  | .hole i :: t => (if i < k then vals i else phTok i) ++ renderFrom k vals t

/-- Well-formedness of one segment: literal runs contain no brace, hole
indices point at one of the ten placeholders. -/
def segWFb : Seg → Bool
  | .lit s => !(s.contains '{') && !(s.contains '}')
  | .hole i => decide (i < 10)

/-- The replacement chain of `_get_realistic_message`:
`message.replace(phTok 0, vals 0).replace(phTok 1, vals 1)...`, all ten
placeholders in source order. -/
def applyChain (vals : Nat → List Char) (s : List Char) : List Char :=
  (List.range 10).foldl (fun acc k => replaceAll (phTok k) (vals k) acc) s

/-- Try to match placeholder `i` at the head of `xs`. -/
def matchTok (i : Nat) (xs : List Char) : Option (List Char) :=
  if (phTok i).isPrefixOf xs then some (xs.drop (phTok i).length) else none

/-- Try each placeholder at the head of `xs`; first match wins. -/
def matchPh (xs : List Char) : Option (Nat × List Char) :=
  (List.range 10).foldl
    (fun acc i =>
      match acc with
      | some r => some r
      | none => (matchTok i xs).map (fun r => (i, r)))
    none

/-- Fuel-driven template decomposition: literal runs up to the next `'{'`,
which must start one of the ten placeholder tokens. -/
def parseTpl : Nat → List Char → Option (List Seg)
  | 0, xs => if xs.isEmpty then some [] else none
  | f + 1, [] => some []
  | f + 1, x :: rest =>
    if x = '{' then
      match matchPh (x :: rest) with
      | some (i, r) => (parseTpl f r).map (fun segs => Seg.hole i :: segs)
      | none => none
    else
      (parseTpl f ((x :: rest).dropWhile (fun c => c != '{'))).map
        (fun segs => Seg.lit ((x :: rest).takeWhile (fun c => c != '{')) :: segs)

/-- Re-render a decomposition with no placeholder substituted. -/
def rebuildSegs (segs : List Seg) : List Char :=
  renderFrom 0 (fun _ => []) segs

/-- A template passes when it decomposes into brace-free literal runs and
placeholder tokens, the decomposition re-renders to the template itself, and
the template is nonempty. -/
def checkTpl (s : String) : Bool :=
  match parseTpl (s.data.length + 1) s.data with
  | some segs => segs.all segWFb && (rebuildSegs segs == s.data) && !s.data.isEmpty
  | none => false

/-! ## Message catalogs -/

/-- The `messages` dict of `LogGenerator._get_realistic_message`
(`generate_logs.py`), service → level → templates, in source order. -/
def messagesGL : List (String × List (String × List String)) :=
  [("checkout",
    [("DEBUG",
      ["Processing payment method validation",
       "Validating cart contents before checkout",
       "Checking inventory availability for items",
       "Verifying user authentication token",
       "Calculating shipping costs for order"]),
     ("INFO",
      ["User initiated checkout process",
       "Payment processed successfully",
       "Order confirmed and queued for fulfillment",
       "Shipping address validated",
       "Order total calculated: ${amount}"]),
     ("WARN",
      ["Payment method declined, retrying with backup",
       "Inventory low for item {item_id}",
       "Shipping address requires verification",
       "Tax calculation failed, using default rate",
       "User session expired during checkout"]),
     ("ERROR",
      ["Payment gateway timeout - retrying",
       "Inventory check failed for item {item_id}",
       "Address validation service unavailable",
       "Credit card processing failed",
       "Order creation failed due to system error"]),
     ("CRITICAL",
      ["Payment system completely down",
       "Database connection lost during checkout",
       "Critical security breach detected",
       "Order processing system failure",
       "Financial transaction system unavailable"])]),
   ("inventory",
    [("DEBUG",
      ["Checking stock levels for product {product_id}",
       "Updating inventory counts after sale",
       "Validating product availability",
       "Processing stock adjustment request",
       "Calculating reorder points"]),
     ("INFO",
      ["Product {product_id} stock updated",
       "Inventory sync completed successfully",
       "Stock level alert triggered for {product_id}",
       "New product added to inventory",
       "Bulk inventory import completed"]),
     ("WARN",
      ["Stock level below threshold for {product_id}",
       "Inventory sync delayed due to network issues",
       "Product {product_id} marked as discontinued",
       "Warehouse capacity approaching limit",
       "Stock discrepancy detected during audit"]),
     ("ERROR",
      ["Failed to update inventory for {product_id}",
       "Database connection lost during stock check",
       "Inventory sync service unavailable",
       "Stock calculation error for product {product_id}",
       "Warehouse system integration failed"]),
     ("CRITICAL",
      ["Inventory system completely down",
       "Critical stock data corruption detected",
       "Warehouse management system failure",
       "Product database inaccessible",
       "Inventory tracking system offline"])]),
   ("payments",
    [("DEBUG",
      ["Validating payment card details",
       "Processing refund for transaction {txn_id}",
       "Checking payment method eligibility",
       "Verifying merchant account status",
       "Calculating transaction fees"]),
     ("INFO",
      ["Payment of ${amount} processed successfully",
       "Refund issued for transaction {txn_id}",
       "Payment method updated for user {user_id}",
       "Transaction {txn_id} completed",
       "Payment gateway response received"]),
     ("WARN",
      ["Payment processing delayed due to high volume",
       "Fraud detection triggered for transaction {txn_id}",
       "Payment method expired for user {user_id}",
       "Transaction fee calculation failed",
       "Payment gateway rate limit exceeded"]),
     ("ERROR",
      ["Payment processing failed for transaction {txn_id}",
       "Credit card declined for user {user_id}",
       "Payment gateway timeout occurred",
       "Transaction {txn_id} failed validation",
       "Refund processing error for {txn_id}"]),
     ("CRITICAL",
      ["Payment system security breach detected",
       "Financial data corruption in transaction {txn_id}",
       "Payment gateway completely unavailable",
       "Critical payment processing failure",
       "Financial system integrity compromised"])]),
   ("search",
    [("DEBUG",
      ["Indexing new product {product_id}",
       "Processing search query: {query}",
       "Updating search index for category {category}",
       "Validating search filters",
       "Calculating search relevance scores"]),
     ("INFO",
      ["Search index updated successfully",
       "User searched for: {query}",
       "Search results returned in {time}ms",
       "Search cache populated for query: {query}",
       "Product {product_id} added to search index"]),
     ("WARN",
      ["Search index update delayed",
       "Search query timeout for: {query}",
       "Search cache miss for popular query",
       "Search performance degraded",
       "Index optimization required"]),
     ("ERROR",
      ["Search index corruption detected",
       "Search service unavailable for query: {query}",
       "Failed to update search index",
       "Search database connection lost",
       "Search query processing failed"]),
     ("CRITICAL",
      ["Search system completely down",
       "Search index data corruption",
       "Search database inaccessible",
       "Critical search system failure",
       "Search infrastructure offline"])]),
   ("shipping",
    [("DEBUG",
      ["Calculating shipping costs for order {order_id}",
       "Validating shipping address",
       "Processing shipping label request",
       "Tracking package {tracking_id}",
       "Updating delivery status"]),
     ("INFO",
      ["Package {tracking_id} shipped successfully",
       "Delivery confirmed for order {order_id}",
       "Shipping label generated for {tracking_id}",
       "Package {tracking_id} out for delivery",
       "Order {order_id} delivered successfully"]),
     ("WARN",
      ["Shipping address validation failed",
       "Package {tracking_id} delivery delayed",
       "Shipping cost calculation error",
       "Tracking information unavailable for {tracking_id}",
       "Delivery attempt failed for {tracking_id}"]),
     ("ERROR",
      ["Failed to generate shipping label",
       "Package {tracking_id} lost in transit",
       "Shipping service unavailable",
       "Delivery confirmation failed",
       "Tracking system integration error"]),
     ("CRITICAL",
      ["Shipping system completely down",
       "Package tracking system offline",
       "Critical delivery system failure",
       "Shipping database inaccessible",
       "Logistics system infrastructure down"])])]

/-- The `messages` dict of `BaseLogGenerator._get_realistic_message`
(`log_generators.py`): as `messagesGL` but with extended `DEBUG`/`INFO`
template lists. -/
def messagesLG : List (String × List (String × List String)) :=
  [("checkout",
    [("DEBUG",
      ["Processing payment method validation",
       "Validating cart contents before checkout",
       "Checking inventory availability for items",
       "Verifying user authentication token",
       "Calculating shipping costs for order",
       "Applying promotional discounts",
       "Validating coupon code",
       "Checking user loyalty points"]),
     ("INFO",
      ["User initiated checkout process",
       "Payment processed successfully",
       "Order confirmed and queued for fulfillment",
       "Shipping address validated",
       "Order total calculated: ${amount}",
       "User completed checkout in {time} seconds",
       "Order {order_id} created successfully",
       "Payment method updated successfully",
       "Checkout process completed without issues",
       "User added items to cart",
       "Shipping method selected",
       "Tax calculation completed",
       "User profile updated",
       "Cart contents validated",
       "Discount applied successfully"]),
     ("WARN",
      ["Payment method declined, retrying with backup",
       "Inventory low for item {item_id}",
       "Shipping address requires verification",
       "Tax calculation failed, using default rate",
       "User session expired during checkout"]),
     ("ERROR",
      ["Payment gateway timeout - retrying",
       "Inventory check failed for item {item_id}",
       "Address validation service unavailable",
       "Credit card processing failed",
       "Order creation failed due to system error"]),
     ("CRITICAL",
      ["Payment system completely down",
       "Database connection lost during checkout",
       "Critical security breach detected",
       "Order processing system failure",
       "Financial transaction system unavailable"])]),
   ("inventory",
    [("DEBUG",
      ["Checking stock levels for product {product_id}",
       "Updating inventory counts after sale",
       "Validating product availability",
       "Processing stock adjustment request",
       "Calculating reorder points",
       "Syncing inventory with warehouse",
       "Validating product data",
       "Processing inventory updates"]),
     ("INFO",
      ["Product {product_id} stock updated",
       "Inventory sync completed successfully",
       "Stock level alert triggered for {product_id}",
       "New product added to inventory",
       "Bulk inventory import completed",
       "Product {product_id} restocked",
       "Inventory audit completed successfully",
       "Stock levels synchronized across warehouses",
       "Product {product_id} availability confirmed",
       "Inventory report generated",
       "Stock adjustment processed",
       "Product catalog updated"]),
     ("WARN",
      ["Stock level below threshold for {product_id}",
       "Inventory sync delayed due to network issues",
       "Product {product_id} marked as discontinued",
       "Warehouse capacity approaching limit",
       "Stock discrepancy detected during audit"]),
     ("ERROR",
      ["Failed to update inventory for {product_id}",
       "Database connection lost during stock check",
       "Inventory sync service unavailable",
       "Stock calculation error for product {product_id}",
       "Warehouse system integration failed"]),
     ("CRITICAL",
      ["Inventory system completely down",
       "Critical stock data corruption detected",
       "Warehouse management system failure",
       "Product database inaccessible",
       "Inventory tracking system offline"])]),
   ("payments",
    [("DEBUG",
      ["Validating payment card details",
       "Processing refund for transaction {txn_id}",
       "Checking payment method eligibility",
       "Verifying merchant account status",
       "Calculating transaction fees",
       "Validating payment security",
       "Processing payment authorization"]),
     ("INFO",
      ["Payment of ${amount} processed successfully",
       "Refund issued for transaction {txn_id}",
       "Payment method updated for user {user_id}",
       "Transaction {txn_id} completed",
       "Payment gateway response received",
       "Payment authorization successful",
       "Transaction {txn_id} settled",
       "Payment method verified for user {user_id}",
       "Refund processed for order {order_id}",
       "Payment confirmation sent",
       "Transaction fees calculated",
       "Payment security check passed"]),
     ("WARN",
      ["Payment processing delayed due to high volume",
       "Fraud detection triggered for transaction {txn_id}",
       "Payment method expired for user {user_id}",
       "Transaction fee calculation failed",
       "Payment gateway rate limit exceeded"]),
     ("ERROR",
      ["Payment processing failed for transaction {txn_id}",
       "Credit card declined for user {user_id}",
       "Payment gateway timeout occurred",
       "Transaction {txn_id} failed validation",
       "Refund processing error for {txn_id}"]),
     ("CRITICAL",
      ["Payment system security breach detected",
       "Financial data corruption in transaction {txn_id}",
       "Payment gateway completely unavailable",
       "Critical payment processing failure",
       "Financial system integrity compromised"])]),
   ("search",
    [("DEBUG",
      ["Indexing new product {product_id}",
       "Processing search query: {query}",
       "Updating search index for category {category}",
       "Validating search filters",
       "Calculating search relevance scores",
       "Building search suggestions",
       "Optimizing search results"]),
     ("INFO",
      ["Search index updated successfully",
       "User searched for: {query}",
       "Search results returned in {time}ms",
       "Search cache populated for query: {query}",
       "Product {product_id} added to search index",
       "Search analytics updated",
       "Search performance optimized",
       "Search suggestions generated",
       "Search index rebuilt successfully",
       "Search filters applied",
       "Search ranking updated",
       "Search cache hit for popular query"]),
     ("WARN",
      ["Search index update delayed",
       "Search query timeout for: {query}",
       "Search cache miss for popular query",
       "Search performance degraded",
       "Index optimization required"]),
     ("ERROR",
      ["Search index corruption detected",
       "Search service unavailable for query: {query}",
       "Failed to update search index",
       "Search database connection lost",
       "Search query processing failed"]),
     ("CRITICAL",
      ["Search system completely down",
       "Search index data corruption",
       "Search database inaccessible",
       "Critical search system failure",
       "Search infrastructure offline"])]),
   ("shipping",
    [("DEBUG",
      ["Calculating shipping costs for order {order_id}",
       "Validating shipping address",
       "Processing shipping label request",
       "Tracking package {tracking_id}",
       "Updating delivery status",
       "Validating shipping options",
       "Processing delivery confirmation"]),
     ("INFO",
      ["Package {tracking_id} shipped successfully",
       "Delivery confirmed for order {order_id}",
       "Shipping label generated for {tracking_id}",
       "Package {tracking_id} out for delivery",
       "Order {order_id} delivered successfully",
       "Shipping address validated",
       "Package {tracking_id} in transit",
       "Delivery scheduled for order {order_id}",
       "Shipping confirmation sent",
       "Package {tracking_id} arrived at destination",
       "Delivery route optimized",
       "Shipping costs calculated"]),
     ("WARN",
      ["Shipping address validation failed",
       "Package {tracking_id} delivery delayed",
       "Shipping cost calculation error",
       "Tracking information unavailable for {tracking_id}",
       "Delivery attempt failed for {tracking_id}"]),
     ("ERROR",
      ["Failed to generate shipping label",
       "Package {tracking_id} lost in transit",
       "Shipping service unavailable",
       "Delivery confirmation failed",
       "Tracking system integration error"]),
     ("CRITICAL",
      ["Shipping system completely down",
       "Package tracking system offline",
       "Critical delivery system failure",
       "Shipping database inaccessible",
       "Logistics system infrastructure down"])])]

/-- The per-level fallback templates for an unknown service (identical in
both files). -/
def fallbackServiceTemplates : List (String × List String) :=
  [("DEBUG", ["System debug information", "Processing request", "Validating input"]),
   ("INFO", ["Operation completed successfully", "User action processed", "System status update"]),
   ("WARN", ["Warning condition detected", "Performance degradation", "Resource usage high"]),
   ("ERROR", ["Operation failed", "System error occurred", "Request processing failed"]),
   ("CRITICAL", ["Critical system failure", "Service unavailable", "Data integrity issue"])]

/-- The fallback templates for an unknown level (identical in both files). -/
def fallbackLevelTemplates : List String :=
  ["System message", "Log entry", "Event occurred"]

/-- `messages.get(service, {generic}).get(level, [generic])`: the template
list `_get_realistic_message` picks from. -/
def lookupTemplates (catalog : List (String × List (String × List String)))
    (service level : String) : List String :=
  (dictGet ((dictGet catalog service).getD fallbackServiceTemplates) level).getD
    fallbackLevelTemplates

/-- Every template list `lookupTemplates` can return, for either catalog. -/
def allTemplateLists (catalog : List (String × List (String × List String))) :
    List (List String) :=
  catalog.flatMap (fun p => p.2.map (·.2)) ++
    fallbackServiceTemplates.map (·.2) ++ [fallbackLevelTemplates]

/-! ## Placeholder replacement values

The ten values `_get_realistic_message` substitutes, in replacement order.
Both files draw them identically; the bounds at every call site are literal
and ordered, so `_randint` is the plain in-range draw (`lgRandint`). -/

/-- `f"${randint(10, 999)}.{randint(0, 99):02d}"` for `{amount}`. -/
def amountVal (σ : RS) : List Char × RS :=
  let r1 := lgRandint 10 999 σ
  let r2 := lgRandint 0 99 r1.2
  ('$' :: natStr r1.1.toNat ++ '.' :: pad2 r2.1.toNat, r2.2)

/-- `f"item_{randint(1000, 9999)}"` for `{item_id}`. -/
def itemVal (σ : RS) : List Char × RS :=
  let r := lgRandint 1000 9999 σ
  ("item_".data ++ natStr r.1.toNat, r.2)

/-- `f"prod_{randint(10000, 99999)}"` for `{product_id}`. -/
def productVal (σ : RS) : List Char × RS :=
  let r := lgRandint 10000 99999 σ
  ("prod_".data ++ natStr r.1.toNat, r.2)

/-- `f"user_{randint(1000, 9999)}"` for `{user_id}`. -/
def userVal (σ : RS) : List Char × RS :=
  let r := lgRandint 1000 9999 σ
  ("user_".data ++ natStr r.1.toNat, r.2)

/-- `f"txn_{randhex(8)}"` for `{txn_id}`. -/
def txnVal (σ : RS) : List Char × RS :=
  let r := randhex 8 σ
  ("txn_".data ++ r.1, r.2)

/-- `f"order_{randint(100000, 999999)}"` for `{order_id}`. -/
def orderVal (σ : RS) : List Char × RS :=
  let r := lgRandint 100000 999999 σ
  ("order_".data ++ natStr r.1.toNat, r.2)

/-- `f"TRK{randhex(10).upper()}"` for `{tracking_id}`. -/
def trackingVal (σ : RS) : List Char × RS :=
  let r := randhex 10 σ
  ("TRK".data ++ r.1.map Char.toUpper, r.2)

/-- The word list of the `{query}` pick. -/
def queryWords : List String :=
  ["laptop", "phone", "shoes", "book", "headphones", "watch", "camera"]

/-- `pick("laptop", ...)` for `{query}`. -/
def queryVal (σ : RS) : List Char × RS :=
  let r := pickL queryWords "" σ
  (r.1.data, r.2)

/-- The word list of the `{category}` pick. -/
def categoryWords : List String :=
  ["electronics", "clothing", "books", "home", "sports"]

/-- `pick("electronics", ...)` for `{category}`. -/
def categoryVal (σ : RS) : List Char × RS :=
  let r := pickL categoryWords "" σ
  (r.1.data, r.2)

/-- `str(randint(50, 2000))` for `{time}`. -/
def timeVal (σ : RS) : List Char × RS :=
  let r := lgRandint 50 2000 σ
  (natStr r.1.toNat, r.2)

/-- A replacement value is brace-free and nonempty. -/
def goodVal (v : List Char) : Prop :=
  '{' ∉ v ∧ '}' ∉ v ∧ v ≠ []

/-- Draw the ten replacement values in source order; the function maps the
placeholder index to its value. -/
def mkVals (σ : RS) : (Nat → List Char) × RS :=
  let v0 := amountVal σ
  let v1 := itemVal v0.2
  let v2 := productVal v1.2
  let v3 := userVal v2.2
  let v4 := txnVal v3.2
  let v5 := orderVal v4.2
  let v6 := trackingVal v5.2
  let v7 := queryVal v6.2
  let v8 := categoryVal v7.2
  let v9 := timeVal v8.2
  (fun i => [v0.1, v1.1, v2.1, v3.1, v4.1, v5.1, v6.1, v7.1, v8.1, v9.1].getD i [], v9.2)

/-- `_get_realistic_message(service, level)`: pick a template from the
catalog (with the unknown-service and unknown-level fallbacks), then run the
ten-step placeholder replacement chain.  (In the source each value is drawn
at its own `replace` call; drawing all ten up front consumes the random
stream in the same order and the replacement chain is unchanged.) -/
def getRealisticMessage (catalog : List (String × List (String × List String)))
    (service level : String) (σ : RS) : List Char × RS :=
  let tpl := pickL (lookupTemplates catalog service level) "" σ
  let vals := mkVals tpl.2
  (applyChain vals.1 tpl.1.data, vals.2)

/-! ## Line generators (`generate_apache_logs`, `generate_json_logs`,
`JsonLogGenerator.generate`)

Wall-clock timestamps are an external input: `tsF i` is the rendered
timestamp text of the `i`-th line.  Each generator returns the list of lines
it appends to the destination (in its own order; interleaving with other
concurrent generators is outside this model) together with the rest of the
random stream. -/

/-- Run a per-line generator `n` times, threading the stream and the 1-based
line index (`for i in range(1, lines_to_generate + 1)`). -/
def generateN {α : Type} (line : Nat → RS → α × RS) : Nat → Nat → RS → List α × RS
  | 0, _, σ => ([], σ)
  | n + 1, i, σ =>
    let r := line i σ
    let rest := generateN line n (i + 1) r.2
    (r.1 :: rest.1, rest.2)

/-- One line of `generate_apache_logs` (`generate_logs.py`), with its field
draws in source order. -/
def apacheLineGL (ts : String) (σ : RS) : String × RS :=
  let ip1 := glRandint 0 1 σ
  let ip2 := glRandint 10 250 ip1.2
  let oid := glRandint 1 9999 ip2.2
  let path := pickL ["/", "/index.html", "/health", "/login", "/api/items",
    "/api/orders?id=" ++ String.mk (natStr oid.1.toNat)] "" oid.2
  let method := pickL ["GET", "POST", "PUT", "DELETE"] "" path.2
  let status := pickL [200, 201, 204, 301, 302, 400, 401, 403, 404, 429, 500, 502, 503]
    (0 : Int) method.2
  let bytes := glRandint 100 90000 status.2
  let ua := pickL ["curl/8.0", "Mozilla/5.0", "Go-http-client/1.1", "Python-urllib/3.10"]
    "" bytes.2
  let rt := glRandint 0 899 ua.2
  let upstream := pickL ["checkout", "inventory", "payments", "search", "shipping"] "" rt.2
  ("fmt=apache 192.168." ++ String.mk (natStr ip1.1.toNat) ++ "." ++
      String.mk (natStr ip2.1.toNat) ++ " - - [" ++ ts ++ "] \"" ++ method.1 ++ " " ++
      path.1 ++ " HTTP/1.1\" " ++ String.mk (natStr status.1.toNat) ++ " " ++
      String.mk (natStr bytes.1.toNat) ++ " \"-\" \"" ++ ua.1 ++ "\" rt=0." ++
      String.mk (pad3 rt.1.toNat) ++ " upstream=" ++ upstream.1,
    upstream.2)

/-- `generate_apache_logs` (`generate_logs.py`): the per-run line count is
`_get_random_lines()`, a fresh uniform draw from `[1, lines_per_format]` —
not the configured value itself. -/
def generateApacheLogsGL (linesPerFormat : Int) (tsF : Nat → String) (σ : RS) :
    List String × RS :=
  let ltg := glRandint 1 linesPerFormat σ
  generateN (fun i σ' => apacheLineGL (tsF i) σ') ltg.1.toNat 1 ltg.2

/-- The JSON log record: the `log_data` dict of `generate_json_logs` /
`JsonLogGenerator.generate`, whose keys (in insertion order) `json.dumps`
serialises. -/
structure JsonRecord where
  fmt : String
  ts : String
  level : String
  service : String
  user : String
  duration_ms : Int
  msg : String
deriving DecidableEq, Repr

/-- A JSON scalar of the record. -/
inductive JVal
  | s (v : String)
  | n (v : Int)
deriving DecidableEq, Repr

/-- The key/value pairs of the serialised object, in the dict's insertion
order — exactly what `json.dumps(log_data)` emits. -/
def JsonRecord.assoc (r : JsonRecord) : List (String × JVal) :=
  [("fmt", .s r.fmt), ("ts", .s r.ts), ("level", .s r.level), ("service", .s r.service),
   ("user", .s r.user), ("duration_ms", .n r.duration_ms), ("msg", .s r.msg)]

/-- The key set the claim requires of every JSON line. -/
def jsonKeys : List String :=
  ["fmt", "ts", "level", "service", "user", "duration_ms", "msg"]

/-- One record of `generate_json_logs` (`generate_logs.py`), field draws in
source order. -/
def jsonLineGL (ts : String) (σ : RS) : JsonRecord × RS :=
  let level := pickL ["DEBUG", "INFO", "NOTICE", "WARN", "ERROR", "CRITICAL"] "" σ
  let service := pickL ["checkout", "inventory", "payments", "search", "shipping"] "" level.2
  let duration := glRandint 10 5000 service.2
  let user := glRandint 1000 9999 duration.2
  let msg := getRealisticMessage messagesGL service.1 level.1 user.2
  ({ fmt := "json", ts := ts, level := level.1, service := service.1,
     user := "u" ++ String.mk (natStr user.1.toNat), duration_ms := duration.1,
     msg := String.mk msg.1 }, msg.2)

/-- `generate_json_logs` (`generate_logs.py`): like apache, the per-run line
count is a fresh uniform draw from `[1, lines_per_format]`. -/
def generateJsonLogsGL (linesPerFormat : Int) (tsF : Nat → String) (σ : RS) :
    List JsonRecord × RS :=
  let ltg := glRandint 1 linesPerFormat σ
  generateN (fun i σ' => jsonLineGL (tsF i) σ') ltg.1.toNat 1 ltg.2

/-- One record of `JsonLogGenerator.generate` (`log_generators.py`). -/
def jsonLineLG (ts : String) (σ : RS) : JsonRecord × RS :=
  let level := pickL ["DEBUG", "INFO", "NOTICE", "WARN", "ERROR", "CRITICAL"] "" σ
  let service := pickL ["checkout", "inventory", "payments", "search", "shipping"] "" level.2
  let duration := lgRandint 10 5000 service.2
  let user := lgRandint 1000 9999 duration.2
  let msg := getRealisticMessage messagesLG service.1 level.1 user.2
  ({ fmt := "json", ts := ts, level := level.1, service := service.1,
     user := "u" ++ String.mk (natStr user.1.toNat), duration_ms := duration.1,
     msg := String.mk msg.1 }, msg.2)

/-- `JsonLogGenerator.generate` (`log_generators.py`): emits exactly
`self.lines` records — the configured count, with no random draw. -/
def jsonGenerateLG (lines : Nat) (tsF : Nat → String) (σ : RS) : List JsonRecord × RS :=
  generateN (fun i σ' => jsonLineLG (tsF i) σ') lines 1 σ

end GenLogs

namespace GenLogs

/-! ## Theorems -/

/-- Bounds of a uniform draw on a nonempty range. -/
theorem uniformInt_bounds (low high : Int) (n : Nat) (h : low ≤ high) :
    low ≤ uniformInt low high n ∧ uniformInt low high n ≤ high := by
  unfold uniformInt
  have hpos : (0 : Int) < high - low + 1 := by omega
  have h1 : 0 ≤ (n : Int) % (high - low + 1) :=
    Int.emod_nonneg _ (by omega)
  have h2 : (n : Int) % (high - low + 1) < high - low + 1 :=
    Int.emod_lt_of_pos _ hpos
  omega

/-- C5, counterexample.  The claim states that `randomInt(10, 5)` returns a
value in `[5, 10]`; but `BaseLogGenerator._randint` of `log_generators.py`
passes the unswapped bounds straight to `random.randint`, which raises
`ValueError` on the empty range — no value is returned at all. -/
theorem c5_counterexample : (baseRandint 10 5 []).1 = none := by rfl

/-- C5, amended.  `LogGenerator._randint` of `generate_logs.py` swaps the
bounds when `low > high` and always returns a value in
`[min low high, max low high]`; `BaseLogGenerator._randint` of
`log_generators.py` returns a value in `[low, high]` when `low ≤ high` and
raises (returns no value) when `low > high`. -/
theorem c5_amended (low high : Int) (σ : RS) :
    (min low high ≤ (glRandint low high σ).1 ∧
      (glRandint low high σ).1 ≤ max low high) ∧
    (low ≤ high →
      ∃ v, (baseRandint low high σ).1 = some v ∧ low ≤ v ∧ v ≤ high) ∧
    (low > high → (baseRandint low high σ).1 = none) := by
  refine ⟨?_, ?_, ?_⟩
  · unfold glRandint
    rcases le_or_lt low high with h | h
    · have := uniformInt_bounds low high (nextN σ).1 h
      simp only [if_neg (not_lt.mpr h)]
      constructor
      · exact le_trans (min_le_left _ _) this.1
      · exact le_trans this.2 (le_max_right _ _)
    · have := uniformInt_bounds high low (nextN σ).1 (le_of_lt h)
      simp only [if_pos h]
      constructor
      · exact le_trans (min_le_right _ _) this.1
      · exact le_trans this.2 (le_max_left _ _)
  · intro h
    refine ⟨uniformInt low high (nextN σ).1, ?_, (uniformInt_bounds low high _ h).1,
      (uniformInt_bounds low high _ h).2⟩
    unfold baseRandint
    simp [if_pos h]
  · intro h
    unfold baseRandint
    simp [if_neg (not_le.mpr h)]

/-- C5, witness: the amended theorem evaluated at `(10, 5)` (swapped-bounds
side of `generate_logs.py`, error side of `log_generators.py`) on the empty
stream. -/
theorem c5_amended_witness :
    (min (10 : Int) 5 ≤ (glRandint 10 5 []).1 ∧
      (glRandint 10 5 []).1 ≤ max (10 : Int) 5) ∧
    (baseRandint 10 5 []).1 = none :=
  ⟨(c5_amended 10 5 []).1, (c5_amended 10 5 []).2.2 (by decide)⟩

/-! ### Dictionary lemmas -/

theorem dictGet_nil {β : Type} (k : String) : dictGet ([] : List (String × β)) k = none := rfl

theorem dictGet_cons {β : Type} (k' : String) (v' : β) (t : List (String × β)) (k : String) :
    dictGet ((k', v') :: t) k = if k' = k then some v' else dictGet t k := by
  by_cases h : k' = k <;> simp [dictGet, List.find?_cons, h]

theorem dictGet_dictInsert_self {β : Type} (k : String) (v : β) (l : List (String × β)) :
    dictGet (dictInsert k v l) k = some v := by
  induction l with
  | nil => simp [dictInsert, dictGet_cons]
  | cons p t ih =>
    obtain ⟨k', v'⟩ := p
    by_cases h : k' = k
    · simp [dictInsert, h, dictGet_cons]
    · simp only [dictInsert, beq_iff_eq, if_neg h]
      rw [dictGet_cons, if_neg h]
      exact ih

theorem dictGet_dictInsert_ne {β : Type} (k k' : String) (v : β) (l : List (String × β))
    (h : k' ≠ k) : dictGet (dictInsert k v l) k' = dictGet l k' := by
  induction l with
  | nil => simp [dictInsert, dictGet_cons, Ne.symm h]
  | cons p t ih =>
    obtain ⟨k₀, v₀⟩ := p
    by_cases h0 : k₀ = k
    · simp only [dictInsert, beq_iff_eq, if_pos h0]
      rw [dictGet_cons, if_neg (Ne.symm h), dictGet_cons, if_neg (h0 ▸ Ne.symm h)]
    · simp only [dictInsert, beq_iff_eq, if_neg h0]
      rw [dictGet_cons, dictGet_cons, ih]

theorem dictGet_init (l : List EventConfig) (d : List (String × EventState)) (k : String) :
    dictGet (l.foldl (fun d e => dictInsert e.id ({} : EventState) d) d) k =
      if ∃ e ∈ l, e.id = k then some {} else dictGet d k := by
  induction l generalizing d with
  | nil => simp
  | cons e t ih =>
    simp only [List.foldl_cons]
    rw [ih]
    by_cases hk : ∃ e' ∈ t, e'.id = k
    · rw [if_pos hk]
      obtain ⟨e', he', hid⟩ := hk
      rw [if_pos ⟨e', List.mem_cons_of_mem _ he', hid⟩]
    · rw [if_neg hk]
      by_cases he : e.id = k
      · subst he
        rw [dictGet_dictInsert_self, if_pos ⟨e, List.mem_cons_self _ _, rfl⟩]
      · rw [dictGet_dictInsert_ne e.id k _ d (fun hh => he hh.symm)]
        rw [if_neg ?hneg]
        case hneg =>
          rintro ⟨e', he', hid⟩
          rcases List.mem_cons.mp he' with rfl | hmem
          · exact he hid
          · exact hk ⟨e', hmem, hid⟩

/-! ### Recording lemmas -/

theorem recordLogGenerated_eq (c : Coordinator) (eid : String) (st : EventState)
    (h : dictGet c.event_state eid = some st) (fmt : String) (st' : EventState)
    (hinc : incCounter st fmt = some st') :
    recordLogGenerated c eid fmt =
      some { c with event_state := dictInsert eid st' c.event_state } := by
  simp [recordLogGenerated, h, hinc]

theorem recordRepeat_apache (n : Nat) :
    ∀ (c : Coordinator) (eid : String) (st : EventState),
      dictGet c.event_state eid = some st →
      ∃ c', recordRepeat eid "apache" n c = some c' ∧
        c'.events = c.events ∧ c'.start_time = c.start_time ∧
        dictGet c'.event_state eid =
          some { st with apache_logs_generated := st.apache_logs_generated + n } ∧
        ∀ k, k ≠ eid → dictGet c'.event_state k = dictGet c.event_state k := by
  induction n with
  | zero =>
    intro c eid st h
    exact ⟨c, rfl, rfl, rfl, by simpa using h, fun k _ => rfl⟩
  | succ n ih =>
    intro c eid st h
    have hinc : incCounter st "apache" =
        some ⟨st.apache_logs_generated + 1, st.nginx_logs_generated, st.started, st.ended⟩ := by
      simp [incCounter]
    have hrec := recordLogGenerated_eq c eid st h "apache" _ hinc
    obtain ⟨c', hc', hev, hstart, hget, hoth⟩ :=
      ih ⟨c.events, c.start_time,
          dictInsert eid
            ⟨st.apache_logs_generated + 1, st.nginx_logs_generated, st.started, st.ended⟩
            c.event_state⟩
        eid ⟨st.apache_logs_generated + 1, st.nginx_logs_generated, st.started, st.ended⟩
        (dictGet_dictInsert_self _ _ _)
    refine ⟨c', ?_, hev, hstart, ?_, ?_⟩
    · show (recordLogGenerated c eid "apache").bind (recordRepeat eid "apache" n) = some c'
      rw [hrec]
      exact hc'
    · rw [hget]
      have harith : st.apache_logs_generated + 1 + n = st.apache_logs_generated + (n + 1) := by
        omega
      rw [harith]
    · intro k hk
      rw [hoth k hk]
      exact dictGet_dictInsert_ne _ _ _ _ hk

/-! ### Active-event lemmas -/

theorem getActiveEventFrom_mem (startT : Int) (state : List (String × EventState))
    (fmt : String) (now : Int) :
    ∀ (l : List EventConfig) (e : EventConfig),
      getActiveEventFrom startT state fmt now l = .ok (some e) → e ∈ l := by
  intro l
  induction l with
  | nil =>
    intro e h
    simp [getActiveEventFrom] at h
  | cons a t ih =>
    intro e h
    unfold getActiveEventFrom at h
    split at h
    · exact absurd h (by simp)
    · split at h
      · split at h
        · split at h
          · exact absurd h (by simp)
          · split at h
            · split at h
              · split at h
                · split at h
                  · exact .tail _ (ih e h)
                  · obtain rfl : a = e := by injection h with h'; injection h'
                    exact .head _
                · obtain rfl : a = e := by injection h with h'; injection h'
                  exact .head _
              · obtain rfl : a = e := by injection h with h'; injection h'
                exact .head _
            · obtain rfl : a = e := by injection h with h'; injection h'
              exact .head _
        · exact .tail _ (ih e h)
      · exact .tail _ (ih e h)

theorem getActiveEventFrom_eq_find (startT : Int) (state : List (String × EventState))
    (fmt : String) (now : Int) :
    ∀ (l : List EventConfig),
      (∀ e ∈ l, (parseStartTime startT e.start_time).isSome) →
      (∀ e ∈ l, (dictGet state e.id).isSome) →
      getActiveEventFrom startT state fmt now l =
        .ok (l.find? (qualifiesCode startT state fmt now)) := by
  intro l
  induction l with
  | nil => intro _ _; rfl
  | cons a t ih =>
    intro hp hs
    obtain ⟨es, hes⟩ := Option.isSome_iff_exists.mp (hp a (.head _))
    obtain ⟨st, hst⟩ := Option.isSome_iff_exists.mp (hs a (.head _))
    have iht := ih (fun e he => hp e (.tail _ he)) (fun e he => hs e (.tail _ he))
    by_cases hw : es ≤ now ∧ now ≤ es + a.duration_seconds
    · by_cases hf : fmt ∈ a.affected_formats
      · cases hcfg : formatConfig a fmt with
        | none =>
          rw [List.find?_cons_of_pos _ (by simp [qualifiesCode, hes, hw.1, hw.2, hf, hcfg])]
          simp [getActiveEventFrom, hes, hst, hcfg, hw, hf]
        | some cfg =>
          cases htl : cfg.total_logs with
          | none =>
            rw [List.find?_cons_of_pos _
              (by simp [qualifiesCode, hes, hw.1, hw.2, hf, hcfg, htl])]
            simp [getActiveEventFrom, hes, hst, hcfg, htl, hw, hf]
          | some maxL =>
            by_cases hz : maxL = 0
            · rw [List.find?_cons_of_pos _
                (by simp [qualifiesCode, hes, hw.1, hw.2, hf, hcfg, htl, hz])]
              simp [getActiveEventFrom, hes, hst, hcfg, htl, hw, hf, hz]
            · by_cases hcnt : (counterOf st fmt : Int) < maxL
              · rw [List.find?_cons_of_pos _
                  (by simp [qualifiesCode, hes, hw.1, hw.2, hf, hcfg, htl, hz, hst, hcnt])]
                simp [getActiveEventFrom, hes, hst, hcfg, htl, hw, hf, hz, not_le.mpr hcnt]
              · rw [List.find?_cons_of_neg _
                  (by simp [qualifiesCode, hes, hw.1, hw.2, hf, hcfg, htl, hz, hst, hcnt])]
                rw [← iht]
                simp [getActiveEventFrom, hes, hst, hcfg, htl, hw, hf, hz, not_lt.mp hcnt]
      · rw [List.find?_cons_of_neg _ (by simp [qualifiesCode, hes, hf])]
        rw [← iht]
        simp [getActiveEventFrom, hes, hf, hw]
    · rw [List.find?_cons_of_neg _
        (by simp only [qualifiesCode, hes]
            rcases not_and_or.mp hw with h | h <;> simp [h])]
      rw [← iht]
      simp [getActiveEventFrom, hes, hw]

/-! ### Claim theorems: event coordinator -/

/-- C3, counterexample.  `get_active_event` is *not* the first-match search
under the claim's qualification predicate: for an event whose `apache`
override configures `total_logs = 0`, the cap (0 lines) is already reached
by a fresh counter, so the claim's predicate disqualifies the event — yet
the source's truthiness guard (`if config and config.get("total_logs")`)
treats a cap of `0` as "no cap" and returns the event. -/
theorem c3_counterexample :
    getActiveEvent coordZeroCap "apache" 10 = .ok (some evZeroCap) ∧
    coordZeroCap.events.find?
      (qualifiesPerClaim coordZeroCap.start_time coordZeroCap.event_state "apache" 10) =
      none :=
  ⟨rfl, rfl⟩

/-- C3, amended.  `get_active_event` is a deterministic function of the
event list, run-start time, counters, format and timestamp: provided every
event's `start_time` parses and has a state record, it returns exactly the
first event (in declaration order) whose window contains `now`, whose
affected formats include the format, and whose per-format cap — when
configured *nonzero* (Python truthiness) — is not yet reached; `none` when
no event qualifies.  No randomness is involved, so identical inputs give
identical results. -/
theorem c3_amended (c : Coordinator) (fmt : String) (now : Int)
    (hparse : ∀ e ∈ c.events, (parseStartTime c.start_time e.start_time).isSome)
    (hstate : ∀ e ∈ c.events, (dictGet c.event_state e.id).isSome) :
    getActiveEvent c fmt now =
      .ok (c.events.find? (qualifiesCode c.start_time c.event_state fmt now)) ∧
    getActiveEvent c fmt now = getActiveEvent c fmt now :=
  ⟨getActiveEventFrom_eq_find _ _ _ _ c.events hparse hstate, rfl⟩

/-- C3, witness: the amended theorem evaluated on the concrete zero-cap
coordinator. -/
theorem c3_amended_witness :
    getActiveEvent coordZeroCap "apache" 10 =
      .ok (coordZeroCap.events.find?
        (qualifiesCode coordZeroCap.start_time coordZeroCap.event_state "apache" 10)) :=
  (c3_amended coordZeroCap "apache" 10 (by decide) (by decide)).1

/-- C4, counterexample.  The claim says `recordLine(event, format)` succeeds
for *every* format listed in the event's `affected_formats`; but
`__init__` creates counter keys only for `apache` and `nginx`, so for an
event affecting `mysql` the increment `state["mysql_logs_generated"] += 1`
raises `KeyError` (modelled as `none`). -/
theorem c4_counterexample :
    "mysql" ∈ evMysql.affected_formats ∧
    recordLogGenerated coordMysql "scan_001" "mysql" = none :=
  ⟨by decide, rfl⟩

/-- C4, amended.  For a loaded event (one with a state record) and a format
with a counter key — `apache` or `nginx` — `record_log_generated` completes
and increments exactly that event's counter for that format by one, leaving
the other counters unchanged. -/
theorem c4_amended (c : Coordinator) (eid fmt : String) (st : EventState)
    (hst : dictGet c.event_state eid = some st)
    (hfmt : fmt = "apache" ∨ fmt = "nginx") :
    ∃ c', recordLogGenerated c eid fmt = some c' ∧ c'.events = c.events ∧
      ∃ st', dictGet c'.event_state eid = some st' ∧
        counterOf st' fmt = counterOf st fmt + 1 ∧
        ∀ f, f ≠ fmt → counterOf st' f = counterOf st f := by
  rcases hfmt with rfl | rfl
  · refine ⟨_, recordLogGenerated_eq c eid st hst "apache"
      ⟨st.apache_logs_generated + 1, st.nginx_logs_generated, st.started, st.ended⟩
      (by simp [incCounter]), rfl,
      ⟨st.apache_logs_generated + 1, st.nginx_logs_generated, st.started, st.ended⟩,
      dictGet_dictInsert_self _ _ _, by simp [counterOf], ?_⟩
    intro f hf
    simp only [counterOf, beq_iff_eq, if_neg hf]
  · refine ⟨_, recordLogGenerated_eq c eid st hst "nginx"
      ⟨st.apache_logs_generated, st.nginx_logs_generated + 1, st.started, st.ended⟩
      (by simp [incCounter]), rfl,
      ⟨st.apache_logs_generated, st.nginx_logs_generated + 1, st.started, st.ended⟩,
      dictGet_dictInsert_self _ _ _, by simp [counterOf], ?_⟩
    intro f hf
    simp only [counterOf, beq_iff_eq, if_neg hf]

/-- C4, witness: the amended theorem evaluated on the concrete `scan_001`
coordinator for the `apache` format. -/
theorem c4_amended_witness :
    ∃ c', recordLogGenerated coordMysql "scan_001" "apache" = some c' ∧
      c'.events = coordMysql.events ∧
      ∃ st', dictGet c'.event_state "scan_001" = some st' ∧
        counterOf st' "apache" = counterOf ({} : EventState) "apache" + 1 ∧
        ∀ f, f ≠ "apache" → counterOf st' f = counterOf ({} : EventState) f :=
  c4_amended coordMysql "scan_001" "apache" {} (by decide) (Or.inl rfl)

/-- C2, confirmed.  For an event whose `apache` override caps `total_logs`
at 50: starting from a fresh coordinator, after exactly 50 calls to
`record_log_generated(event.id, "apache")`, `get_active_event("apache", t)`
at any `t` inside the event's window no longer returns that event — the
search falls through to the remaining events (or baseline) — while
`get_active_event("nginx", t)` at the same `t` still returns the event
whenever `nginx` is among its affected formats and its own cap (if any
nonzero one is configured) is unmet. -/
theorem c2_cap_enforcement (e : EventConfig) (rest : List EventConfig) (startT now : Int)
    (cfg : FormatCfg) (hcfg : e.apache_config = some cfg) (hcap : cfg.total_logs = some 50)
    (es : Int) (hes : parseStartTime startT e.start_time = some es)
    (hwin : es ≤ now ∧ now ≤ es + e.duration_seconds)
    (hids : ∀ e' ∈ rest, e'.id ≠ e.id)
    (hnfmt : "nginx" ∈ e.affected_formats)
    (hncap : match nginxCap e with
             | some n => n = 0 ∨ 0 < n
             | none => True) :
    ∃ c', recordRepeat e.id "apache" 50 (mkCoordinator (e :: rest) startT) = some c' ∧
      getActiveEvent c' "apache" now =
        getActiveEventFrom c'.start_time c'.event_state "apache" now rest ∧
      getActiveEvent c' "apache" now ≠ .ok (some e) ∧
      getActiveEvent c' "nginx" now = .ok (some e) := by
  have hinit : dictGet (mkCoordinator (e :: rest) startT).event_state e.id =
      some ({} : EventState) := by
    show dictGet ((e :: rest).foldl (fun d e => dictInsert e.id ({} : EventState) d) []) e.id =
      some {}
    rw [dictGet_init]
    rw [if_pos ⟨e, List.mem_cons_self _ _, rfl⟩]
  obtain ⟨c', hc', hev, hstart, hget, hoth⟩ :=
    recordRepeat_apache 50 (mkCoordinator (e :: rest) startT) e.id {} hinit
  have hev' : c'.events = e :: rest := hev
  have hstart' : c'.start_time = startT := hstart
  have hget' : dictGet c'.event_state e.id =
      some ⟨50, 0, false, false⟩ := by simpa using hget
  have hfall : getActiveEvent c' "apache" now =
      getActiveEventFrom c'.start_time c'.event_state "apache" now rest := by
    show getActiveEventFrom c'.start_time c'.event_state "apache" now c'.events =
      getActiveEventFrom c'.start_time c'.event_state "apache" now rest
    rw [hev', hstart']
    by_cases hf : "apache" ∈ e.affected_formats
    · simp [getActiveEventFrom, hes, hwin, hf, hget', formatConfig, hcfg, hcap, counterOf]
    · simp [getActiveEventFrom, hes, hwin, hf]
  refine ⟨c', hc', hfall, ?_, ?_⟩
  · rw [hfall]
    intro habs
    exact hids e (getActiveEventFrom_mem _ _ _ _ rest e habs) rfl
  · show getActiveEventFrom c'.start_time c'.event_state "nginx" now c'.events =
      .ok (some e)
    rw [hev', hstart']
    rcases hnc : e.nginx_config with _ | cfg2
    · simp [getActiveEventFrom, hes, hwin, hnfmt, hget', formatConfig, hnc]
    · rcases htl2 : cfg2.total_logs with _ | n
      · simp [getActiveEventFrom, hes, hwin, hnfmt, hget', formatConfig, hnc, htl2]
      · have hn : n = 0 ∨ 0 < n := by
          have : nginxCap e = some n := by simp [nginxCap, hnc, htl2]
          simpa [this] using hncap
        rcases hn with rfl | hn
        · simp [getActiveEventFrom, hes, hwin, hnfmt, hget', formatConfig, hnc, htl2]
        · simp [getActiveEventFrom, hes, hwin, hnfmt, hget', formatConfig, hnc, htl2,
            counterOf, hn.ne', not_le.mpr hn]

/-- C2, witness: the theorem evaluated on the `attack_001` example event
(apache cap 50, nginx cap 40) at run-start 0 and `t = 150` (inside the
window `[120, 420]`). -/
theorem c2_cap_enforcement_witness :
    ∃ c', recordRepeat "attack_001" "apache" 50 (mkCoordinator [evAttack] 0) = some c' ∧
      getActiveEvent c' "apache" 150 =
        getActiveEventFrom c'.start_time c'.event_state "apache" 150 [] ∧
      getActiveEvent c' "apache" 150 ≠ .ok (some evAttack) ∧
      getActiveEvent c' "nginx" 150 = .ok (some evAttack) :=
  c2_cap_enforcement evAttack [] 0 150
    { total_logs := some 50, error_rate := some (7 / 10), error_codes := some [403, 404, 500] }
    rfl rfl 120 (by decide) (by decide) (by simp) (by decide)
    (Or.inr (by decide))

/-! ### Claim theorems: run scheduler and registry -/

theorem failMsg_mem_failLogs (l : List (String × Except String Unit))
    (p : String × Except String Unit) (e : String)
    (hp : p ∈ l) (he : p.2 = .error e) : failMsg p.1 e ∈ failLogs l := by
  induction l with
  | nil => cases hp
  | cons q t ih =>
    obtain ⟨name, r⟩ := q
    rcases List.mem_cons.mp hp with rfl | hmem
    · cases hr : r with
      | ok u => rw [hr] at he; simp at he
      | error e' =>
        rw [hr] at he
        obtain rfl : e' = e := by simpa using he
        show failMsg name e' ∈ failMsg name e' :: failLogs t
        exact List.mem_cons_self _ _
    · cases r with
      | ok u => simpa [failLogs] using ih hmem
      | error e' => exact List.mem_cons_of_mem _ (ih hmem)

/-- C6, counterexample.  In the class-based `run_concurrent` (cited from
`refactored_example.py` / `enhanced_cli_example.py`), a single failing task
makes `future.result()` raise out of the scheduler: no log line names the
failing format and the final completion report is never reached — the run's
log output stops at the two header lines. -/
theorem c6_counterexample :
    (runConcurrentClassBased "loadgen.log" 100
        [.ok (), .error "disk full", .ok ()]).2 = .error "disk full" ∧
    (runConcurrentClassBased "loadgen.log" 100
        [.ok (), .error "disk full", .ok ()]).1 = classHeader "loadgen.log" 100 :=
  ⟨rfl, rfl⟩

/-- C6, amended.  In `run_concurrent` of `generate_logs.py` the claim holds:
every failed task's exception is caught and logged with the failing format's
name, the other outcomes are still consumed, and the scheduler always
reaches its final completion report.  In the class-based variants a task
failure instead propagates out of `run_concurrent`: nothing is logged beyond
the headers and the completion report is skipped (the already-submitted
sibling tasks still run to completion under the executor's shutdown). -/
theorem c6_amended (outputFile : String) (linesPerFormat : Nat)
    (outcomes : List (String × Except String Unit)) (oc : List (Except String Unit)) :
    (∀ p ∈ outcomes, ∀ e, p.2 = .error e →
      failMsg p.1 e ∈ runConcurrentGL outputFile linesPerFormat outcomes) ∧
    glFinalMsg outputFile ∈ runConcurrentGL outputFile linesPerFormat outcomes ∧
    (∀ e, awaitAll oc = .error e →
      (runConcurrentClassBased outputFile linesPerFormat oc).2 = .error e ∧
      (runConcurrentClassBased outputFile linesPerFormat oc).1 =
        classHeader outputFile linesPerFormat) := by
  refine ⟨?_, ?_, ?_⟩
  · intro p hp e he
    unfold runConcurrentGL
    exact List.mem_append_left _ (List.mem_append_right _ (failMsg_mem_failLogs _ p e hp he))
  · unfold runConcurrentGL
    exact List.mem_append_right _ (List.mem_singleton_self _)
  · intro e h
    constructor <;> simp [runConcurrentClassBased, h]

/-- C6, witness: the amended theorem evaluated on a concrete batch with one
failing format per scheduler variant. -/
theorem c6_amended_witness :
    failMsg "CSV" "disk full" ∈ runConcurrentGL "loadgen.log" 5
      [("Apache", .ok ()), ("CSV", .error "disk full"), ("JSON", .ok ())] ∧
    glFinalMsg "loadgen.log" ∈ runConcurrentGL "loadgen.log" 5
      [("Apache", .ok ()), ("CSV", .error "disk full"), ("JSON", .ok ())] ∧
    (runConcurrentClassBased "loadgen.log" 5 [.ok (), .error "oops"]).2 = .error "oops" :=
  ⟨(c6_amended "loadgen.log" 5
      [("Apache", .ok ()), ("CSV", .error "disk full"), ("JSON", .ok ())] [.ok (), .error "oops"]).1
      ("CSV", .error "disk full") (by simp) "disk full" rfl,
   (c6_amended "loadgen.log" 5
      [("Apache", .ok ()), ("CSV", .error "disk full"), ("JSON", .ok ())] [.ok (), .error "oops"]).2.1,
   ((c6_amended "loadgen.log" 5
      [("Apache", .ok ()), ("CSV", .error "disk full"), ("JSON", .ok ())] [.ok (), .error "oops"]).2.2
      "oops" rfl).1⟩

/-- C8.  Both schedulers submit exactly one task per format.  In
`generate_logs.py` the pool size (6) matches its 6 formats, but the
class-based `run_concurrent` submits one task per key of the 11-entry
`LOG_GENERATORS` registry while keeping `max_workers=6` — its own log
messages still assert "6 formats" — so the pool is *not* sized to the
number of formats being generated. -/
theorem c8_pool_size :
    glGenerators.length = glMaxWorkers ∧
    classBasedSubmittedFormats.length = 11 ∧
    classBasedMaxWorkers = 6 ∧
    classBasedMaxWorkers ≠ classBasedSubmittedFormats.length ∧
    classBasedClaimedFormatCount ≠ classBasedSubmittedFormats.length := by
  decide

/-- C9.  The `LOG_GENERATORS` registry maps exactly the eleven names
`apache, csv, pipe, kv, hadoop, logstash, nginx, tomcat, mysql, redis,
syslog` — no `"json"` entry and no entry whose class is `JsonLogGenerator` —
so the class-based runner's `"all"` mode (one task per registry key) and the
enhanced CLI's `--format` choices (registry keys plus `"all"`) can never
select the JSON generator. -/
theorem c9_registry_no_json :
    classBasedSubmittedFormats =
      ["apache", "csv", "pipe", "kv", "hadoop", "logstash", "nginx", "tomcat", "mysql",
       "redis", "syslog"] ∧
    "json" ∉ classBasedSubmittedFormats ∧
    (LOG_GENERATORS.all (fun p => !(p.2 == GenKind.json))) = true ∧
    enhancedCliFormatChoices = classBasedSubmittedFormats ++ ["all"] ∧
    "json" ∉ enhancedCliFormatChoices := by
  decide

/-! ### `replaceAll` lemmas -/

theorem replaceAllFuel_invariance (p v : List Char) :
    ∀ (f₁ f₂ : Nat) (xs : List Char), xs.length ≤ f₁ → xs.length ≤ f₂ →
      replaceAllFuel p v f₁ xs = replaceAllFuel p v f₂ xs := by
  intro f₁
  induction f₁ with
  | zero =>
    intro f₂ xs h1 _
    obtain rfl : xs = [] := List.eq_nil_of_length_eq_zero (Nat.le_zero.mp h1)
    cases f₂ <;> rfl
  | succ f ih =>
    intro f₂ xs h1 h2
    cases xs with
    | nil => cases f₂ <;> rfl
    | cons x t =>
      cases f₂ with
      | zero => simp at h2
      | succ g =>
        simp only [replaceAllFuel]
        by_cases hc : p ≠ [] ∧ p.isPrefixOf (x :: t)
        · rw [if_pos hc, if_pos hc]
          have hplen : 1 ≤ p.length := List.length_pos.mpr hc.1
          have hd : ((x :: t).drop p.length).length ≤ f := by
            simp only [List.length_drop, List.length_cons]
            simp only [List.length_cons] at h1
            omega
          have hd2 : ((x :: t).drop p.length).length ≤ g := by
            simp only [List.length_drop, List.length_cons]
            simp only [List.length_cons] at h2
            omega
          rw [ih _ _ hd hd2]
        · rw [if_neg hc, if_neg hc]
          have ht1 : t.length ≤ f := by simp only [List.length_cons] at h1; omega
          have ht2 : t.length ≤ g := by simp only [List.length_cons] at h2; omega
          rw [ih _ _ ht1 ht2]

theorem replaceAll_cons_pos (p v : List Char) (x : Char) (xs : List Char)
    (hp : p ≠ []) (hpre : p.isPrefixOf (x :: xs)) :
    replaceAll p v (x :: xs) = v ++ replaceAll p v ((x :: xs).drop p.length) := by
  show replaceAllFuel p v (x :: xs).length (x :: xs) = _
  simp only [List.length_cons, replaceAllFuel, if_pos (And.intro hp hpre)]
  congr 1
  apply replaceAllFuel_invariance
  · have hplen : 1 ≤ p.length := List.length_pos.mpr hp
    simp only [List.length_drop, List.length_cons]
    omega
  · exact Nat.le_refl _

theorem replaceAll_cons_neg (p v : List Char) (x : Char) (xs : List Char)
    (h : ¬(p ≠ [] ∧ p.isPrefixOf (x :: xs))) :
    replaceAll p v (x :: xs) = x :: replaceAll p v xs := by
  show replaceAllFuel p v (x :: xs).length (x :: xs) = _
  simp only [List.length_cons, replaceAllFuel, if_neg h]
  rfl

theorem replaceAll_cons_head_ne (p v : List Char) (c x : Char) (xs : List Char)
    (hph : p.head? = some c) (hx : x ≠ c) :
    replaceAll p v (x :: xs) = x :: replaceAll p v xs := by
  apply replaceAll_cons_neg
  rintro ⟨hp, hpre⟩
  cases p with
  | nil => exact hp rfl
  | cons a q =>
    obtain rfl : a = c := by simpa using hph
    simp only [List.isPrefixOf, Bool.and_eq_true, beq_iff_eq] at hpre
    exact hx hpre.1.symm

theorem replaceAll_append_left (p v : List Char) (c : Char) (hph : p.head? = some c) :
    ∀ (s ys : List Char), c ∉ s → replaceAll p v (s ++ ys) = s ++ replaceAll p v ys := by
  intro s
  induction s with
  | nil => intro ys _; rfl
  | cons a t ih =>
    intro ys hc
    have ha : a ≠ c := fun h => hc (h ▸ List.mem_cons_self a t)
    rw [List.cons_append, replaceAll_cons_head_ne p v c a (t ++ ys) hph ha,
      ih ys (fun hm => hc (List.mem_cons_of_mem a hm)), List.cons_append]

theorem isPrefixOf_self_append (l r : List Char) : l.isPrefixOf (l ++ r) = true := by
  induction l with
  | nil => cases r <;> rfl
  | cons a t ih => simp [List.isPrefixOf, ih]

theorem replaceAll_occur (p v rest : List Char) (hp : p ≠ []) :
    replaceAll p v (p ++ rest) = v ++ replaceAll p v rest := by
  cases p with
  | nil => exact absurd rfl hp
  | cons a q =>
    rw [List.cons_append,
      replaceAll_cons_pos (a :: q) v a (q ++ rest) hp
        (by rw [← List.cons_append]; exact isPrefixOf_self_append (a :: q) rest)]
    congr 1
    have : (a :: (q ++ rest)).drop (a :: q).length = rest := by
      simpa using List.drop_left (a :: q) rest
    rw [this]

/-! ### Placeholder lemmas -/

theorem phWord_brace_free : ∀ i, i < 10 → '{' ∉ phWord i ∧ '}' ∉ phWord i := by decide

theorem phWord_ne : ∀ i, i < 10 → ∀ j, j < 10 → i ≠ j → phWord i ≠ phWord j := by decide

theorem phTok_head (i : Nat) : (phTok i).head? = some '{' := rfl

theorem phTok_ne_nil (i : Nat) : phTok i ≠ [] := by simp [phTok]

theorem phTok_brace_mem (i : Nat) : '{' ∈ phTok i := by simp [phTok]

/-- A left-brace-delimited token with a brace-free name is never a strict
prefix of a different such token (followed by anything): the closing braces
cannot line up. -/
theorem brace_close_not_prefixOf :
    ∀ (w₁ w₂ : List Char), '}' ∉ w₁ → '}' ∉ w₂ → w₁ ≠ w₂ → ∀ rest,
      (w₁ ++ ['}']).isPrefixOf (w₂ ++ ['}'] ++ rest) = false := by
  intro w₁
  induction w₁ with
  | nil =>
    intro w₂ _ h2 hne rest
    cases w₂ with
    | nil => exact absurd rfl hne
    | cons b u =>
      have hb : b ≠ '}' := fun h => h2 (h ▸ List.mem_cons_self b u)
      simp [List.isPrefixOf, beq_iff_eq, Ne.symm hb]
  | cons a t ih =>
    intro w₂ h1 h2 hne rest
    cases w₂ with
    | nil =>
      have ha : a ≠ '}' := fun h => h1 (h ▸ List.mem_cons_self a t)
      simp [List.isPrefixOf, beq_iff_eq, ha]
    | cons b u =>
      by_cases hab : a = b
      · subst hab
        have hne' : t ≠ u := fun h => hne (h ▸ rfl)
        have h1' : '}' ∉ t := fun hm => h1 (List.mem_cons_of_mem a hm)
        have h2' : '}' ∉ u := fun hm => h2 (List.mem_cons_of_mem a hm)
        simpa [List.isPrefixOf, List.cons_append] using ih u h1' h2' hne' rest
      · simp [List.isPrefixOf, List.cons_append, beq_iff_eq, hab]

/-- Distinct placeholder tokens never match at the same position. -/
theorem phTok_not_prefixOf (i j : Nat) (hi : i < 10) (hj : j < 10) (hij : i ≠ j)
    (rest : List Char) :
    (phTok i).isPrefixOf (phTok j ++ rest) = false := by
  have h1 := (phWord_brace_free i hi).2
  have h2 := (phWord_brace_free j hj).2
  have hw := phWord_ne i hi j hj hij
  have := brace_close_not_prefixOf (phWord i) (phWord j) h1 h2 hw rest
  simpa [phTok, List.isPrefixOf, List.cons_append, List.append_assoc] using this

/-! ### Rendering lemmas -/

theorem renderFrom_zero_eq (v₁ v₂ : Nat → List Char) :
    ∀ segs, renderFrom 0 v₁ segs = renderFrom 0 v₂ segs := by
  intro segs
  induction segs with
  | nil => rfl
  | cons s t ih =>
    cases s with
    | lit l => simp [renderFrom, ih]
    | hole i => simp [renderFrom, ih]

theorem segWFb_lit {l : List Char} (h : segWFb (Seg.lit l) = true) : '{' ∉ l ∧ '}' ∉ l := by
  simp only [segWFb, Bool.and_eq_true, Bool.not_eq_true', List.contains, List.elem_eq_mem,
    decide_eq_false_iff_not] at h
  exact h

theorem segWFb_hole {i : Nat} (h : segWFb (Seg.hole i) = true) : i < 10 := by
  simpa [segWFb] using h

/-- The key substitution step: replacing placeholder `k` in a rendering in
which placeholders `< k` already carry brace-free values turns it into the
rendering at `k + 1`.  Matching is position-faithful: the pattern starts
with `'{'`, which occurs only at the heads of still-unsubstituted tokens,
and there only the identical token matches. -/
theorem replaceAll_renderFrom (vals : Nat → List Char)
    (hv : ∀ i, i < 10 → '{' ∉ vals i) (k : Nat) (hk : k < 10) :
    ∀ (segs : List Seg), (∀ s ∈ segs, segWFb s = true) →
      replaceAll (phTok k) (vals k) (renderFrom k vals segs) =
        renderFrom (k + 1) vals segs := by
  intro segs
  induction segs with
  | nil => intro _; rfl
  | cons s t ih =>
    intro hwf
    have iht := ih (fun x hx => hwf x (List.mem_cons_of_mem s hx))
    cases s with
    | lit l =>
      have hl := (segWFb_lit (hwf _ (List.mem_cons_self _ _))).1
      show replaceAll (phTok k) (vals k) (l ++ renderFrom k vals t) =
        l ++ renderFrom (k + 1) vals t
      rw [replaceAll_append_left _ _ '{' (phTok_head k) l _ hl, iht]
    | hole i =>
      have hi := segWFb_hole (hwf _ (List.mem_cons_self _ _))
      show replaceAll (phTok k) (vals k)
          ((if i < k then vals i else phTok i) ++ renderFrom k vals t) =
        (if i < k + 1 then vals i else phTok i) ++ renderFrom (k + 1) vals t
      by_cases hik : i < k
      · rw [if_pos hik, if_pos (Nat.lt_succ_of_lt hik),
          replaceAll_append_left _ _ '{' (phTok_head k) _ _ (hv i hi), iht]
      · by_cases hik2 : i = k
        · subst hik2
          rw [if_neg hik, if_pos (Nat.lt_succ_self i),
            replaceAll_occur _ _ _ (phTok_ne_nil i), iht]
        · have hgt : ¬ i < k + 1 := by omega
          rw [if_neg hik, if_neg hgt]
          have hshape : phTok i ++ renderFrom k vals t =
              '{' :: (phWord i ++ ['}'] ++ renderFrom k vals t) := by
            simp [phTok, List.cons_append, List.append_assoc]
          rw [hshape]
          have hnp : (phTok k).isPrefixOf (phTok i ++ renderFrom k vals t) = false :=
            phTok_not_prefixOf k i hk hi (fun h => hik2 h.symm) _
          rw [hshape] at hnp
          rw [replaceAll_cons_neg _ _ _ _ (by
            rintro ⟨-, hpre⟩
            rw [hnp] at hpre
            exact Bool.false_ne_true hpre)]
          have hnb : '{' ∉ phWord i ++ ['}'] := by
            intro hm
            rcases List.mem_append.mp hm with hm | hm
            · exact (phWord_brace_free i hi).1 hm
            · simp at hm
          rw [show phWord i ++ ['}'] ++ renderFrom k vals t =
              (phWord i ++ ['}']) ++ renderFrom k vals t from by simp [List.append_assoc]]
          rw [replaceAll_append_left _ _ '{' (phTok_head k) _ _ hnb, iht]
          simp [phTok, List.cons_append, List.append_assoc]

/-- Applying the whole ten-step replacement chain to the raw rendering of a
well-formed decomposition substitutes every placeholder. -/
theorem applyChain_renderFrom (vals : Nat → List Char)
    (hv : ∀ i, i < 10 → '{' ∉ vals i)
    (segs : List Seg) (hwf : ∀ s ∈ segs, segWFb s = true) :
    applyChain vals (renderFrom 0 vals segs) = renderFrom 10 vals segs := by
  have key : ∀ (n k : Nat), k + n = 10 →
      (List.range' k n).foldl (fun acc j => replaceAll (phTok j) (vals j) acc)
        (renderFrom k vals segs) = renderFrom 10 vals segs := by
    intro n
    induction n with
    | zero =>
      intro k hk
      obtain rfl : k = 10 := by omega
      rfl
    | succ m ih =>
      intro k hk
      rw [List.range'_succ, List.foldl_cons,
        replaceAll_renderFrom vals hv k (by omega) segs hwf]
      exact ih (k + 1) (by omega)
  have h10 : List.range 10 = List.range' 0 10 := List.range_eq_range' 10
  unfold applyChain
  rw [h10]
  exact key 10 0 rfl

theorem renderFrom_ten_braces (vals : Nat → List Char)
    (hv : ∀ i, i < 10 → '{' ∉ vals i ∧ '}' ∉ vals i) :
    ∀ segs, (∀ s ∈ segs, segWFb s = true) →
      '{' ∉ renderFrom 10 vals segs ∧ '}' ∉ renderFrom 10 vals segs := by
  intro segs
  induction segs with
  | nil => intro _; simp [renderFrom]
  | cons s t ih =>
    intro hwf
    have iht := ih (fun x hx => hwf x (List.mem_cons_of_mem s hx))
    cases s with
    | lit l =>
      have hl := segWFb_lit (hwf _ (List.mem_cons_self _ _))
      refine ⟨?_, ?_⟩ <;> intro hm
      · rcases List.mem_append.mp hm with hm | hm
        · exact hl.1 hm
        · exact iht.1 hm
      · rcases List.mem_append.mp hm with hm | hm
        · exact hl.2 hm
        · exact iht.2 hm
    | hole i =>
      have hi := segWFb_hole (hwf _ (List.mem_cons_self _ _))
      show '{' ∉ (if i < 10 then vals i else phTok i) ++ renderFrom 10 vals t ∧
        '}' ∉ (if i < 10 then vals i else phTok i) ++ renderFrom 10 vals t
      rw [if_pos hi]
      refine ⟨?_, ?_⟩ <;> intro hm
      · rcases List.mem_append.mp hm with hm | hm
        · exact (hv i hi).1 hm
        · exact iht.1 hm
      · rcases List.mem_append.mp hm with hm | hm
        · exact (hv i hi).2 hm
        · exact iht.2 hm

theorem renderFrom_ten_ne_nil (vals : Nat → List Char)
    (hvne : ∀ i, i < 10 → vals i ≠ []) :
    ∀ segs, (∀ s ∈ segs, segWFb s = true) → rebuildSegs segs ≠ [] →
      renderFrom 10 vals segs ≠ [] := by
  intro segs
  induction segs with
  | nil => intro _ h0; exact absurd rfl h0
  | cons s t ih =>
    intro hwf h0
    cases s with
    | lit l =>
      cases l with
      | nil =>
        have iht := ih (fun x hx => hwf x (List.mem_cons_of_mem _ hx))
          (by simpa [rebuildSegs, renderFrom] using h0)
        simpa [renderFrom] using iht
      | cons c cs => simp [renderFrom]
    | hole i =>
      have hi := segWFb_hole (hwf _ (List.mem_cons_self _ _))
      show (if i < 10 then vals i else phTok i) ++ renderFrom 10 vals t ≠ []
      rw [if_pos hi]
      cases hval : vals i with
      | nil => exact absurd hval (hvne i hi)
      | cons c cs => simp

theorem checkTpl_sound (s : String) (h : checkTpl s = true) :
    ∃ segs, (∀ x ∈ segs, segWFb x = true) ∧ rebuildSegs segs = s.data ∧ s.data ≠ [] := by
  unfold checkTpl at h
  split at h
  case h_1 segs heq =>
    simp only [Bool.and_eq_true, beq_iff_eq, Bool.not_eq_true', List.all_eq_true] at h
    refine ⟨segs, h.1.1, h.1.2, ?_⟩
    have := h.2
    intro habs
    rw [habs] at this
    simp at this
  case h_2 => exact absurd h (by simp)

/-- For a template passing `checkTpl`, the full replacement chain with
brace-free nonempty values yields a brace-free nonempty string. -/
theorem template_chain_props (s : String) (hck : checkTpl s = true)
    (vals : Nat → List Char)
    (hv : ∀ i, i < 10 → '{' ∉ vals i ∧ '}' ∉ vals i ∧ vals i ≠ []) :
    '{' ∉ applyChain vals s.data ∧ '}' ∉ applyChain vals s.data ∧
      applyChain vals s.data ≠ [] := by
  obtain ⟨segs, hwf, hrb, hne⟩ := checkTpl_sound s hck
  have h0 : renderFrom 0 vals segs = s.data := by
    rw [renderFrom_zero_eq vals (fun _ => [])]
    exact hrb
  rw [← h0, applyChain_renderFrom vals (fun i hi => (hv i hi).1) segs hwf]
  have hb := renderFrom_ten_braces vals (fun i hi => ⟨(hv i hi).1, (hv i hi).2.1⟩) segs hwf
  have hn := renderFrom_ten_ne_nil vals (fun i hi => (hv i hi).2.2) segs hwf
    (by rw [hrb]; exact hne)
  exact ⟨hb.1, hb.2, hn⟩

/-- An occurrence of a pattern contributes all of the pattern's characters. -/
theorem Occurs.mem {p xs : List Char} (h : Occurs p xs) {c : Char} (hc : c ∈ p) :
    c ∈ xs := by
  obtain ⟨a, b, rfl⟩ := h
  exact List.mem_append.mpr (Or.inl (List.mem_append.mpr (Or.inr hc)))

/-! ### Replacement-value lemmas -/

theorem digitChar_mem_digits : ∀ m, m < 10 → Nat.digitChar m ∈ "0123456789".data := by
  decide

theorem natStrFuel_mem : ∀ f n, ∀ c ∈ natStrFuel f n, c ∈ "0123456789".data := by
  intro f
  induction f with
  | zero =>
    intro n c hc
    simp only [natStrFuel, List.mem_singleton] at hc
    subst hc
    exact digitChar_mem_digits _ (Nat.mod_lt _ (by omega))
  | succ f ih =>
    intro n c hc
    simp only [natStrFuel] at hc
    split at hc
    · simp only [List.mem_singleton] at hc
      subst hc
      exact digitChar_mem_digits n (by assumption)
    · rcases List.mem_append.mp hc with hc | hc
      · exact ih _ c hc
      · simp only [List.mem_singleton] at hc
        subst hc
        exact digitChar_mem_digits _ (Nat.mod_lt _ (by omega))

theorem natStr_mem (n : Nat) : ∀ c ∈ natStr n, c ∈ "0123456789".data :=
  natStrFuel_mem n n

theorem natStr_ne_nil (n : Nat) : natStr n ≠ [] := by
  unfold natStr
  cases n with
  | zero => simp [natStrFuel]
  | succ m =>
    simp only [natStrFuel]
    split
    · simp
    · simp

theorem digits_safe : ∀ c ∈ "0123456789".data, c ≠ '{' ∧ c ≠ '}' := by decide

theorem natStr_safe (n : Nat) : ∀ c ∈ natStr n, c ≠ '{' ∧ c ≠ '}' :=
  fun c hc => digits_safe c (natStr_mem n c hc)

theorem pad2_safe (x : Nat) : ∀ c ∈ pad2 x, c ≠ '{' ∧ c ≠ '}' := by
  intro c hc
  unfold pad2 at hc
  split at hc
  · rcases List.mem_cons.mp hc with rfl | hc
    · exact ⟨by decide, by decide⟩
    · exact natStr_safe x c hc
  · exact natStr_safe x c hc

theorem pickL_mem {α : Type} (xs : List α) (d : α) (σ : RS) (h : xs ≠ []) :
    (pickL xs d σ).1 ∈ xs := by
  have hlen : 0 < xs.length := List.length_pos.mpr h
  have hlt : (nextN σ).1 % xs.length < xs.length := Nat.mod_lt _ hlen
  show xs.getD ((nextN σ).1 % xs.length) d ∈ xs
  rw [List.getD_eq_getElem?_getD, List.getElem?_eq_getElem hlt]
  simpa using List.getElem_mem hlt

theorem randChars_mem (A : List Char) (hA : A ≠ []) :
    ∀ n σ, ∀ c ∈ (randChars A n σ).1, c ∈ A := by
  intro n
  induction n with
  | zero => intro σ c hc; simp [randChars] at hc
  | succ m ih =>
    intro σ c hc
    simp only [randChars, List.mem_cons] at hc
    rcases hc with rfl | hc
    · exact pickL_mem A '0' σ hA
    · exact ih _ c hc

theorem hex_safe : ∀ c ∈ hexAlphabet, c ≠ '{' ∧ c ≠ '}' := by decide

theorem hexUpper_safe : ∀ c ∈ hexAlphabet.map Char.toUpper, c ≠ '{' ∧ c ≠ '}' := by decide

theorem randhex_safe (n : Nat) (σ : RS) : ∀ c ∈ (randhex n σ).1, c ≠ '{' ∧ c ≠ '}' :=
  fun c hc => hex_safe c (randChars_mem hexAlphabet (by decide) n σ c hc)

theorem amountVal_good (σ : RS) : goodVal (amountVal σ).1 := by
  refine ⟨?_, ?_, by simp [amountVal]⟩ <;>
    · intro hm
      rcases List.mem_cons.mp hm with h | hm
      · exact absurd h (by decide)
      · rcases List.mem_append.mp hm with hm | hm
        · first
            | exact (natStr_safe _ _ hm).1 rfl
            | exact (natStr_safe _ _ hm).2 rfl
        · rcases List.mem_cons.mp hm with h | hm
          · exact absurd h (by decide)
          · first
              | exact (pad2_safe _ _ hm).1 rfl
              | exact (pad2_safe _ _ hm).2 rfl

theorem prefixed_natStr_good (pre : String) (hpre : ∀ c ∈ pre.data, c ≠ '{' ∧ c ≠ '}')
    (hne : pre.data ≠ []) (n : Nat) : goodVal (pre.data ++ natStr n) := by
  refine ⟨?_, ?_, by simp [hne]⟩ <;>
    · intro hm
      rcases List.mem_append.mp hm with hm | hm
      · first
          | exact (hpre _ hm).1 rfl
          | exact (hpre _ hm).2 rfl
      · first
          | exact (natStr_safe _ _ hm).1 rfl
          | exact (natStr_safe _ _ hm).2 rfl

theorem itemVal_good (σ : RS) : goodVal (itemVal σ).1 :=
  prefixed_natStr_good "item_" (by decide) (by decide) _

theorem productVal_good (σ : RS) : goodVal (productVal σ).1 :=
  prefixed_natStr_good "prod_" (by decide) (by decide) _

theorem userVal_good (σ : RS) : goodVal (userVal σ).1 :=
  prefixed_natStr_good "user_" (by decide) (by decide) _

theorem orderVal_good (σ : RS) : goodVal (orderVal σ).1 :=
  prefixed_natStr_good "order_" (by decide) (by decide) _

theorem txnVal_good (σ : RS) : goodVal (txnVal σ).1 := by
  refine ⟨?_, ?_, by simp [txnVal]⟩ <;>
    · intro hm
      simp only [txnVal] at hm
      rcases List.mem_append.mp hm with hm | hm
      · revert hm
        decide
      · first
          | exact (randhex_safe _ _ _ hm).1 rfl
          | exact (randhex_safe _ _ _ hm).2 rfl

theorem trackingVal_good (σ : RS) : goodVal (trackingVal σ).1 := by
  refine ⟨?_, ?_, by simp [trackingVal]⟩ <;>
    · intro hm
      simp only [trackingVal] at hm
      rcases List.mem_append.mp hm with hm | hm
      · revert hm
        decide
      · obtain ⟨c', hc', heq⟩ := List.mem_map.mp hm
        have hmem' : c' ∈ hexAlphabet :=
          randChars_mem hexAlphabet (by decide) 10 σ c' hc'
        have hsafe := hexUpper_safe _ (List.mem_map.mpr ⟨c', hmem', rfl⟩)
        first
          | exact hsafe.1 heq
          | exact hsafe.2 heq

theorem wordPick_good (words : List String) (hw : words ≠ [])
    (hsafe : ∀ w ∈ words, (∀ c ∈ w.data, c ≠ '{' ∧ c ≠ '}') ∧ w.data ≠ [])
    (σ : RS) : goodVal ((pickL words "" σ).1.data) := by
  have hmem := pickL_mem words "" σ hw
  have h := hsafe _ hmem
  exact ⟨fun hm => (h.1 _ hm).1 rfl, fun hm => (h.1 _ hm).2 rfl, h.2⟩

theorem queryVal_good (σ : RS) : goodVal (queryVal σ).1 :=
  wordPick_good queryWords (by decide) (by decide) σ

theorem categoryVal_good (σ : RS) : goodVal (categoryVal σ).1 :=
  wordPick_good categoryWords (by decide) (by decide) σ

theorem timeVal_good (σ : RS) : goodVal (timeVal σ).1 := by
  have := natStr_safe ((lgRandint 50 2000 σ).1.toNat)
  exact ⟨fun hm => (this _ hm).1 rfl, fun hm => (this _ hm).2 rfl,
    natStr_ne_nil _⟩

theorem mkVals_good (σ : RS) : ∀ i, i < 10 → goodVal ((mkVals σ).1 i) := by
  intro i hi
  interval_cases i <;>
    simp only [mkVals, List.getD_cons_zero, List.getD_cons_succ] <;>
    first
      | exact amountVal_good _
      | exact itemVal_good _
      | exact productVal_good _
      | exact userVal_good _
      | exact txnVal_good _
      | exact orderVal_good _
      | exact trackingVal_good _
      | exact queryVal_good _
      | exact categoryVal_good _
      | exact timeVal_good _

/-! ### Catalog lookup lemmas -/

theorem dictGet_mem {β : Type} (l : List (String × β)) (k : String) (v : β)
    (h : dictGet l k = some v) : v ∈ l.map (·.2) := by
  unfold dictGet at h
  cases hf : l.find? (fun p => p.1 == k) with
  | none => rw [hf] at h; cases h
  | some p =>
    rw [hf] at h
    obtain rfl : p.2 = v := by simpa using h
    exact List.mem_map.mpr ⟨p, List.mem_of_find?_eq_some hf, rfl⟩

theorem lookupTemplates_mem (catalog : List (String × List (String × List String)))
    (service level : String) :
    lookupTemplates catalog service level ∈ allTemplateLists catalog := by
  unfold lookupTemplates allTemplateLists
  cases hsvc : dictGet catalog service with
  | none =>
    simp only [hsvc, Option.getD_none]
    cases hlev : dictGet fallbackServiceTemplates level with
    | none => simp [hlev]
    | some tl =>
      simp only [hlev, Option.getD_some]
      exact List.mem_append.mpr (Or.inl (List.mem_append.mpr (Or.inr (dictGet_mem _ _ _ hlev))))
  | some svc =>
    simp only [hsvc, Option.getD_some]
    have hsvcmem : svc ∈ catalog.map (·.2) := dictGet_mem _ _ _ hsvc
    cases hlev : dictGet svc level with
    | none => simp [hlev]
    | some tl =>
      simp only [hlev, Option.getD_some]
      apply List.mem_append.mpr
      left
      apply List.mem_append.mpr
      left
      obtain ⟨p, hp, hp2⟩ := List.mem_map.mp hsvcmem
      exact List.mem_flatMap.mpr ⟨p, hp, by rw [hp2]; exact dictGet_mem _ _ _ hlev⟩

/-- Every template list either catalog can serve is nonempty and passes the
template check (`generate_logs.py` catalog). -/
theorem messagesGL_templates_ok :
    ((allTemplateLists messagesGL).all (fun l => !l.isEmpty && l.all checkTpl)) = true := by
  decide

/-- Every template list either catalog can serve is nonempty and passes the
template check (`log_generators.py` catalog). -/
theorem messagesLG_templates_ok :
    ((allTemplateLists messagesLG).all (fun l => !l.isEmpty && l.all checkTpl)) = true := by
  decide

/-- Totality and cleanliness of `_get_realistic_message` over one catalog. -/
theorem realistic_message_props (catalog : List (String × List (String × List String)))
    (hok : ((allTemplateLists catalog).all (fun l => !l.isEmpty && l.all checkTpl)) = true)
    (service level : String) (σ : RS) :
    (getRealisticMessage catalog service level σ).1 ≠ [] ∧
    '{' ∉ (getRealisticMessage catalog service level σ).1 ∧
    '}' ∉ (getRealisticMessage catalog service level σ).1 ∧
    ∀ i, i < 10 → ¬ Occurs (phTok i) (getRealisticMessage catalog service level σ).1 := by
  have hlist := List.all_eq_true.mp hok _ (lookupTemplates_mem catalog service level)
  simp only [Bool.and_eq_true, Bool.not_eq_true', List.all_eq_true] at hlist
  have hne : lookupTemplates catalog service level ≠ [] := by
    intro habs
    rw [habs] at hlist
    simp at hlist
  have htpl := pickL_mem (lookupTemplates catalog service level) "" σ hne
  have hck := hlist.2 _ htpl
  have hv : ∀ i, i < 10 →
      '{' ∉ (mkVals (pickL (lookupTemplates catalog service level) "" σ).2).1 i ∧
      '}' ∉ (mkVals (pickL (lookupTemplates catalog service level) "" σ).2).1 i ∧
      (mkVals (pickL (lookupTemplates catalog service level) "" σ).2).1 i ≠ [] :=
    fun i hi => mkVals_good _ i hi
  have main := template_chain_props _ hck _ hv
  simp only [getRealisticMessage]
  refine ⟨main.2.2, main.1, main.2.1, ?_⟩
  intro i hi hocc
  exact main.1 (hocc.mem (phTok_brace_mem i))

/-- C7, confirmed.  For every service string and every severity string —
known or unknown, thanks to the generic service and level fallbacks — and
for every random stream, `_get_realistic_message` (in both its
`generate_logs.py` and `log_generators.py` versions) returns a nonempty
string that contains no brace at all, and in particular no unresolved
`{placeholder}` token of the catalog. -/
theorem c7_realistic_message (service level : String) (σ : RS) :
    ((getRealisticMessage messagesGL service level σ).1 ≠ [] ∧
      '{' ∉ (getRealisticMessage messagesGL service level σ).1 ∧
      '}' ∉ (getRealisticMessage messagesGL service level σ).1 ∧
      ∀ i, i < 10 → ¬ Occurs (phTok i) (getRealisticMessage messagesGL service level σ).1) ∧
    ((getRealisticMessage messagesLG service level σ).1 ≠ [] ∧
      '{' ∉ (getRealisticMessage messagesLG service level σ).1 ∧
      '}' ∉ (getRealisticMessage messagesLG service level σ).1 ∧
      ∀ i, i < 10 → ¬ Occurs (phTok i) (getRealisticMessage messagesLG service level σ).1) :=
  ⟨realistic_message_props messagesGL messagesGL_templates_ok service level σ,
   realistic_message_props messagesLG messagesLG_templates_ok service level σ⟩

/-- C7, witness: the theorem evaluated at a known service/level pair and at
an unknown pair (exercising the fallbacks), on the empty stream. -/
theorem c7_realistic_message_witness :
    (getRealisticMessage messagesGL "checkout" "INFO" []).1 ≠ [] ∧
    '{' ∉ (getRealisticMessage messagesGL "checkout" "INFO" []).1 ∧
    ¬ Occurs (phTok 0) (getRealisticMessage messagesGL "checkout" "INFO" []).1 ∧
    (getRealisticMessage messagesLG "turbodb" "TRACE" []).1 ≠ [] :=
  ⟨(c7_realistic_message "checkout" "INFO" []).1.1,
   (c7_realistic_message "checkout" "INFO" []).1.2.1,
   (c7_realistic_message "checkout" "INFO" []).1.2.2.2 0 (by decide),
   (c7_realistic_message "turbodb" "TRACE" []).2.1⟩

/-! ### Claim theorems: line generators -/

theorem generateN_length {α : Type} (line : Nat → RS → α × RS) :
    ∀ (n i : Nat) (σ : RS), (generateN line n i σ).1.length = n := by
  intro n
  induction n with
  | zero => intro i σ; rfl
  | succ m ih =>
    intro i σ
    simp only [generateN, List.length_cons]
    rw [ih]

theorem glRandint_bounds_le (low high : Int) (h : low ≤ high) (σ : RS) :
    low ≤ (glRandint low high σ).1 ∧ (glRandint low high σ).1 ≤ high := by
  unfold glRandint
  simp only [if_neg (not_lt.mpr h)]
  exact uniformInt_bounds low high _ h

/-- C1, counterexample.  With `lines_per_format` configured to 100,
`generate_apache_logs` of `generate_logs.py` does not append 100 lines: the
actual count is `_get_random_lines() = _randint(1, 100)`, a fresh uniform
draw — on the all-zeros stream the run appends exactly one line. -/
theorem c1_counterexample :
    (generateApacheLogsGL 100 (fun _ => "01/Jan/2026:00:00:00 +0000") []).1.length ≠ 100 := by
  decide

/-- C1, amended.  With `lines_per_format = 100` and no events configured:
the `generate_logs.py` run appends `n_apache` Apache-style lines and
`n_json` JSON lines where each count is an independent uniform draw from
`[1, 100]` (so between 1 and 100, not exactly 100), while the class-based
`JsonLogGenerator` with `lines = 100` appends exactly 100 JSON lines; in
all cases every JSON line is an object whose key sequence is exactly
`fmt, ts, level, service, user, duration_ms, msg`. -/
theorem c1_amended (tsF : Nat → String) (σ σ' σ'' : RS) :
    (1 ≤ (generateApacheLogsGL 100 tsF σ).1.length ∧
      (generateApacheLogsGL 100 tsF σ).1.length ≤ 100) ∧
    (1 ≤ (generateJsonLogsGL 100 tsF σ').1.length ∧
      (generateJsonLogsGL 100 tsF σ').1.length ≤ 100) ∧
    (∀ r ∈ (generateJsonLogsGL 100 tsF σ').1, r.assoc.map Prod.fst = jsonKeys) ∧
    (jsonGenerateLG 100 tsF σ'').1.length = 100 ∧
    (∀ r ∈ (jsonGenerateLG 100 tsF σ'').1, r.assoc.map Prod.fst = jsonKeys) := by
  have hb := glRandint_bounds_le 1 100 (by omega) σ
  have hb' := glRandint_bounds_le 1 100 (by omega) σ'
  refine ⟨?_, ?_, ?_, ?_, ?_⟩
  · simp only [generateApacheLogsGL]
    rw [generateN_length]
    omega
  · simp only [generateJsonLogsGL]
    rw [generateN_length]
    omega
  · intro r _
    rfl
  · simp only [jsonGenerateLG]
    rw [generateN_length]
  · intro r _
    rfl

/-- C1, witness: the amended theorem evaluated on concrete streams and a
constant timestamp function. -/
theorem c1_amended_witness :
    (1 ≤ (generateApacheLogsGL 100 (fun _ => "ts") []).1.length ∧
      (generateApacheLogsGL 100 (fun _ => "ts") []).1.length ≤ 100) ∧
    (jsonGenerateLG 100 (fun _ => "ts") [7, 3]).1.length = 100 :=
  ⟨(c1_amended (fun _ => "ts") [] [5] [7, 3]).1,
   (c1_amended (fun _ => "ts") [] [5] [7, 3]).2.2.2.1⟩

end GenLogs
